import Mathlib

/-!
# EcoView firmware: a shallow embedding of the two ESP32 sketches

The simple sketch `src/hardware/main.cpp` (simulated sensors) is embedded in
`EcoView.Hardware`, the extended sketch `src/hardwares/main.cpp` (real sensors
and ThingSpeak) in `EcoView.Hardwares`.

Conventions of the embedding.

* `unsigned long` is 32 bits wide on the ESP32: such values are naturals
  below `2 ^ 32` and subtraction is `usub`, with the wrap written out.
* A `float` is a `FVal`: either NaN or the rational number it stands for.
  Every conversion and operation computed in `float` is rounded to the
  nearest binary32 value by `round32`, every one computed in `double` to the
  nearest binary64 value by `round64`, ties to even, as IEEE 754 arithmetic
  does on the ESP32. Infinities are not represented: the operands of the
  sketches are below `2 ^ 32`, so that no result reaches `2 ^ 128`.
* The collaborators (WiFi stack, HTTP client, sensor drivers, clock, random
  generator) are an `Env` of answer streams; the state `St` holds the global
  and static variables and counts how many answers of each stream have been
  consumed. A procedure is a function `M α` from the state to a result, the
  new state and the calls it made, in order.
* Of the Serial output only the messages that classify an outcome are kept,
  as `Event.report` and `Event.auxReport`.
-/

namespace EcoView

/-- Modulus of `unsigned long` arithmetic on the ESP32. -/
def ulongMod : Nat := 2 ^ 32

/-- Subtraction of two `unsigned long` values, wrapping modulo `2 ^ 32`. -/
def usub (a b : Nat) : Nat := (a + (ulongMod - b % ulongMod)) % ulongMod

/-- Search for the position of the highest set bit of `n` in at most `fuel`
halvings. -/
def log2Fuel : Nat → Nat → Nat
  | 0, _ => 0
  | fuel + 1, n => if n < 2 then 0 else log2Fuel fuel (n / 2) + 1

/-- The position of the highest set bit of `n`: `2 ^ ilog2 n ≤ n < 2 ^ (ilog2 n + 1)`
for `n ≠ 0`. -/
def ilog2 (n : Nat) : Nat := log2Fuel n n

/-- The integer nearest to `m`, the even one of the two when `m` lies half
way between them. -/
def roundHalfEven (m : ℚ) : Int :=
  if m - (Int.floor m : ℚ) < 1 / 2 then Int.floor m
  else if 1 / 2 < m - (Int.floor m : ℚ) then Int.floor m + 1
  else if Int.floor m % 2 = 0 then Int.floor m else Int.floor m + 1

/-- The binary exponent of `x ≠ 0`: the `e` with `2 ^ e ≤ |x| < 2 ^ (e + 1)`. -/
def binExp (x : ℚ) : Int :=
  if (2 : ℚ) ^ ((ilog2 x.num.natAbs : Int) - (ilog2 x.den : Int)) ≤ |x| then
    (ilog2 x.num.natAbs : Int) - (ilog2 x.den : Int)
  else (ilog2 x.num.natAbs : Int) - (ilog2 x.den : Int) - 1

/-- Rounding of `x` to the nearest value of the binary floating-point format
with `prec` significand bits and least normal exponent `emin`, ties to even:
near `x` the values of the format are the multiples of
`2 ^ (max e emin - (prec - 1))`, where `e` is the binary exponent of `x`. -/
def roundBinary (prec : Nat) (emin : Int) (x : ℚ) : ℚ :=
  if x = 0 then 0
  else roundHalfEven (x / (2 : ℚ) ^ (max (binExp x) emin - ((prec : Int) - 1)))
        * (2 : ℚ) ^ (max (binExp x) emin - ((prec : Int) - 1))

/-- Rounding to `float` (binary32: 24 significand bits, exponents from -126). -/
def round32 (x : ℚ) : ℚ := roundBinary 24 (-126) x

/-- Rounding to `double` (binary64: 53 significand bits, exponents from -1022). -/
def round64 (x : ℚ) : ℚ := roundBinary 53 (-1022) x

/-- A `float` value: NaN, or the number it denotes. -/
inductive FVal where
  | nan
  | num (q : ℚ)
deriving DecidableEq

/-- The C function `isnan`. -/
def FVal.isnan : FVal → Bool
  | FVal.nan => true
  | FVal.num _ => false

/-- Conversion `(float)n` of an unsigned integer, rounded to binary32. -/
def FVal.ofNat (n : Nat) : FVal := FVal.num (round32 n)

/-- The conversion `(int)round(v)`: to the nearest integer, halves away from
zero (NaN, which has no integer value, is sent to 0). -/
def FVal.roundInt : FVal → Int
  | FVal.nan => 0
  | FVal.num q => if 0 ≤ q then Int.floor (q + 1 / 2) else - Int.floor (- q + 1 / 2)

/-- Multiplication in `float`, rounded to binary32; NaN is absorbing. -/
def FVal.mul : FVal → FVal → FVal
  | FVal.num a, FVal.num b => FVal.num (round32 (a * b))
  | _, _ => FVal.nan

/-- Division in `float` by a non-zero divisor, rounded to binary32; NaN is
absorbing (a zero divisor, which the sketches never use, is mapped to NaN as
well). -/
def FVal.div : FVal → FVal → FVal
  | FVal.num a, FVal.num b => if b = 0 then FVal.nan else FVal.num (round32 (a / b))
  | _, _ => FVal.nan

/-- Classification of a delivery, one constructor per diagnostic branch of
`sendSensorData` / `enviarDadosServidor`. -/
inductive DeliveryOutcome where
  /-- `httpCode == HTTP_CODE_OK` -/
  | success
  /-- `case -1` -/
  | connectionFailed
  /-- `case HTTPC_ERROR_CONNECTION_LOST` -/
  | connectionLost
  /-- `case HTTPC_ERROR_SEND_HEADER_FAILED` -/
  | headerSendFailed
  /-- `case HTTPC_ERROR_SEND_PAYLOAD_FAILED` -/
  | payloadSendFailed
  /-- the WiFi guard at entry, and `case HTTPC_ERROR_NOT_CONNECTED` -/
  | notConnected
  /-- `case HTTPC_ERROR_READ_TIMEOUT` -/
  | readTimeout
  /-- `case 400`, `case 401`, `case 404`, `case 500`: a message naming the status -/
  | serverRejected (code : Int)
  /-- `default`: the numeric code is printed -/
  | errorCode (code : Int)
deriving DecidableEq

/-- Value stored under a key of the JSON document. -/
inductive JVal where
  | str (s : String)
  | num (v : FVal)
  | int (n : Int)
deriving DecidableEq

/-- A flat JSON document: keys with their values, in insertion order. -/
abbrev Json := List (String × JVal)

/-- Assignment `doc[key] = v` of ArduinoJson: replaces the value of an
existing key, appends the key otherwise. -/
def Json.set : Json → String → JVal → Json
  | [], k, v => [(k, v)]
  | (k0, v0) :: rest, k, v =>
    if k0 = k then (k0, v) :: rest else (k0, v0) :: Json.set rest k v

/-- Value of a query-string field. -/
inductive QVal where
  /-- a number printed with two decimal places, `String(v, 2)` -/
  | dec2 (q : ℚ)
  /-- a literal written in the source -/
  | lit (s : String)
deriving DecidableEq

/-- Target of an HTTP request. -/
inductive Url where
  /-- a fixed URL -/
  | fixed (s : String)
  /-- base URL, `api_key` and the `fieldN` parameters in order -/
  | query (base : String) (apiKey : String) (fields : List (String × QVal))
deriving DecidableEq

/-- Procedures of the two sketches whose invocation is recorded. -/
inductive Proc where
  | connectToWiFi
  | readSimulatedSensors
  | simulateBatteryLevel
  | sendSensorData
  | conectarWiFi
  | ler_sensores
  | enviarDadosServidor
  | enviarThingSpeakCanais
deriving DecidableEq

/-- Calls made by the firmware, as recorded in the trace. -/
inductive Event where
  /-- entry of a procedure of the sketch -/
  | call (p : Proc)
  | wifiStatus
  | wifiBegin
  | millis
  | delay (ms : Nat)
  | random (lo hi : Nat)
  | httpBegin (u : Url)
  | httpAddHeader
  | httpPOST (body : Json)
  | httpGET
  | httpGetString
  | httpEnd
  | requestTemperatures
  | getTempC (i : Nat)
  | readHumidity (dev : Nat)
  | readTemperature (dev : Nat)
  | analogRead (pin : Nat)
  /-- a float division, with its divisor before conversion to float -/
  | fdiv (divisor : Nat)
  /-- the diagnostic message by which procedure `p` classifies its delivery -/
  | report (p : Proc) (o : DeliveryOutcome)
  /-- the diagnostic message of a ThingSpeak channel with the code printed -/
  | auxReport (canal : Nat) (code : Int)
deriving DecidableEq

/-- Is the event a use of the HTTP client? -/
def Event.isHttp : Event → Bool
  | Event.httpBegin _ => true
  | Event.httpAddHeader => true
  | Event.httpPOST _ => true
  | Event.httpGET => true
  | Event.httpGetString => true
  | Event.httpEnd => true
  | _ => false

/-- Is the event a read of a sensor driver? -/
def Event.isSensorRead : Event → Bool
  | Event.requestTemperatures => true
  | Event.getTempC _ => true
  | Event.readHumidity _ => true
  | Event.readTemperature _ => true
  | Event.analogRead _ => true
  | _ => false

/-- Is the event a float division? -/
def Event.isDiv : Event → Bool
  | Event.fdiv _ => true
  | _ => false


/-- Answers of the collaborators, one stream per kind of call. -/
structure Env where
  /-- does the k-th `WiFi.status()` answer `WL_CONNECTED` -/
  status : Nat → Bool
  /-- value of the k-th `millis()`, before reduction to 32 bits -/
  millis : Nat → Nat
  /-- the k-th draw of the random generator -/
  random : Nat → Nat
  /-- result of the k-th HTTP request (`POST` or `GET`) -/
  httpCode : Nat → Int
  /-- `getTempC` of device `i` after the r-th `requestTemperatures()` -/
  getTempC : Nat → Nat → FVal
  /-- result of the k-th read of a DHT driver -/
  dht : Nat → FVal
  /-- result of the k-th `analogRead` -/
  analog : Nat → Nat
  /-- `WiFi.macAddress()` -/
  mac : String

/-- Global and static variables of the sketches and the number of answers
consumed from each stream of `Env`. -/
structure St where
  lastSendTime : Nat
  anemoPulses1 : Nat
  anemoPulses2 : Nat
  ultimoMillis : Nat
  ultimosPulsos1 : Nat
  ultimosPulsos2 : Nat
  nStatus : Nat
  nMillis : Nat
  nRandom : Nat
  nHttp : Nat
  nRequest : Nat
  nDht : Nat
  nAnalog : Nat

/-- State at boot: the initialisers of the globals and statics, no answer
consumed. -/
def St.boot : St :=
  { lastSendTime := 0, anemoPulses1 := 0, anemoPulses2 := 0, ultimoMillis := 0,
    ultimosPulsos1 := 0, ultimosPulsos2 := 0, nStatus := 0, nMillis := 0,
    nRandom := 0, nHttp := 0, nRequest := 0, nDht := 0, nAnalog := 0 }

/-- Result of running a procedure: its value, the state it leaves and the
calls it made, in order. -/
structure Res (α : Type) where
  val : α
  st : St
  events : List Event

/-- A procedure of the firmware. -/
def M (α : Type) : Type := St → Res α

/-- Return without effect. -/
def M.pure {α : Type} (a : α) : M α := fun s => { val := a, st := s, events := [] }

/-- Sequencing: the calls of the second procedure follow those of the first. -/
def M.bind {α β : Type} (m : M α) (f : α → M β) : M β := fun s =>
  { val := (f (m s).val (m s).st).val
    st := (f (m s).val (m s).st).st
    events := (m s).events ++ (f (m s).val (m s).st).events }

instance : Monad M where
  pure := M.pure
  bind := M.bind

/-- Record a call. -/
def emit (e : Event) : M Unit := fun s => { val := (), st := s, events := [e] }

/-- Read the variables. -/
def getSt : M St := fun s => { val := s, st := s, events := [] }

/-- Assignment `lastSendTime = t`. -/
def setLastSendTime (t : Nat) : M Unit := fun s =>
  { val := (), st := { s with lastSendTime := t }, events := [] }

/-- An array of `float`, by index. -/
abbrev FArray := Nat → FVal

/-- Assignment `a[i] = v`. -/
def FArray.write (a : FArray) (i : Nat) (v : FVal) : FArray :=
  fun j => if j = i then v else a j

/-- Contents of a local array before any assignment. -/
def FArray.uninit : FArray := fun _ => FVal.nan

/-- `WiFi.status() == WL_CONNECTED` -/
def wifiConnected (env : Env) : M Bool := fun s =>
  { val := env.status s.nStatus, st := { s with nStatus := s.nStatus + 1 },
    events := [Event.wifiStatus] }

/-- `millis()` -/
def millis (env : Env) : M Nat := fun s =>
  { val := env.millis s.nMillis % ulongMod, st := { s with nMillis := s.nMillis + 1 },
    events := [Event.millis] }

/-- `random(lo, hi)`: an integer in `[lo, hi)`. -/
def random (env : Env) (lo hi : Nat) : M Nat := fun s =>
  { val := lo + env.random s.nRandom % (hi - lo), st := { s with nRandom := s.nRandom + 1 },
    events := [Event.random lo hi] }

/-- `http.POST(payload)`: the request and its result code. -/
def httpPOST (env : Env) (payload : Json) : M Int := fun s =>
  { val := env.httpCode s.nHttp, st := { s with nHttp := s.nHttp + 1 },
    events := [Event.httpPOST payload] }

/-- `http.GET()`: the request and its result code. -/
def httpGET (env : Env) : M Int := fun s =>
  { val := env.httpCode s.nHttp, st := { s with nHttp := s.nHttp + 1 },
    events := [Event.httpGET] }

/-- A read of a DHT driver, recorded as `e`. -/
def dhtRead (env : Env) (e : Event) : M FVal := fun s =>
  { val := env.dht s.nDht, st := { s with nDht := s.nDht + 1 }, events := [e] }

/-- `analogRead(pin)` with the 12-bit resolution set in `setup`. -/
def analogRead (env : Env) (pin : Nat) : M Nat := fun s =>
  { val := env.analog s.nAnalog % 4096, st := { s with nAnalog := s.nAnalog + 1 },
    events := [Event.analogRead pin] }

/-- `const unsigned long postingInterval = 30000;` (both sketches) -/
def postingInterval : Nat := 30000

/-- `HTTP_CODE_OK` of the HTTPClient library. -/
def HTTP_CODE_OK : Int := 200

/-- `HTTPC_ERROR_SEND_HEADER_FAILED` of the HTTPClient library. -/
def HTTPC_ERROR_SEND_HEADER_FAILED : Int := -2

/-- `HTTPC_ERROR_SEND_PAYLOAD_FAILED` of the HTTPClient library. -/
def HTTPC_ERROR_SEND_PAYLOAD_FAILED : Int := -3

/-- `HTTPC_ERROR_NOT_CONNECTED` of the HTTPClient library. -/
def HTTPC_ERROR_NOT_CONNECTED : Int := -4

/-- `HTTPC_ERROR_CONNECTION_LOST` of the HTTPClient library. -/
def HTTPC_ERROR_CONNECTION_LOST : Int := -5

/-- `HTTPC_ERROR_READ_TIMEOUT` of the HTTPClient library. -/
def HTTPC_ERROR_READ_TIMEOUT : Int := -11

/-- The branch taken for a result code of the primary POST: the test
`httpCode == HTTP_CODE_OK` and, in its `else`, the `switch(httpCode)`, which
is the same in `sendSensorData` and `enviarDadosServidor`. -/
def classify (httpCode : Int) : DeliveryOutcome :=
  if httpCode = HTTP_CODE_OK then DeliveryOutcome.success
  else if httpCode = -1 then DeliveryOutcome.connectionFailed
  else if httpCode = HTTPC_ERROR_CONNECTION_LOST then DeliveryOutcome.connectionLost
  else if httpCode = HTTPC_ERROR_SEND_HEADER_FAILED then DeliveryOutcome.headerSendFailed
  else if httpCode = HTTPC_ERROR_SEND_PAYLOAD_FAILED then DeliveryOutcome.payloadSendFailed
  else if httpCode = HTTPC_ERROR_NOT_CONNECTED then DeliveryOutcome.notConnected
  else if httpCode = HTTPC_ERROR_READ_TIMEOUT then DeliveryOutcome.readTimeout
  else if httpCode = 400 then DeliveryOutcome.serverRejected 400
  else if httpCode = 401 then DeliveryOutcome.serverRejected 401
  else if httpCode = 404 then DeliveryOutcome.serverRejected 404
  else if httpCode = 500 then DeliveryOutcome.serverRejected 500
  else DeliveryOutcome.errorCode httpCode

namespace Hardware

/-- `const char* serverUrl` -/
def serverUrl : String := "http://10.5.1.113:8000/api/receive/"

/-- The `while` loop of `connectToWiFi`, with `20 - attempts` as argument:
the status is polled, and while it is not connected and fewer than 20
attempts were made the sketch waits 500 ms and polls again. -/
def connectToWiFiWait (env : Env) : Nat → M Unit
  | 0 => do
    let _ ← wifiConnected env
    pure ()
  | n + 1 => do
    let connected ← wifiConnected env
    if connected then pure ()
    else do
      emit (Event.delay 500)
      connectToWiFiWait env n

/-- `void connectToWiFi()` -/
def connectToWiFi (env : Env) : M Unit := do
  emit (Event.call Proc.connectToWiFi)
  emit Event.wifiBegin
  connectToWiFiWait env 20
  let _ ← wifiConnected env
  pure ()

/-- Upper bound passed to `random` for sensor `i` in `readSimulatedSensors`. -/
def simulatedBound (i : Nat) : Nat :=
  if i < 6 then 10 else if i < 9 then 10 else if i < 11 then 5 else 8

/-- Value computed for sensor `i` in `readSimulatedSensors` from the draw `r`:
the expression is evaluated in `double`, the literals `0.3` and `0.2` being
the nearest `double` values, and the result is stored in a `float`. -/
def simulatedValue (i r : Nat) : ℚ :=
  if i < 6 then
    round32 (round64 (round64 (20 + round64 (i * (1 / 2))) + round64 (r / 10)))
  else if i < 9 then
    round32 (round64 (round64 (50 + ((i * 2 : Nat) : ℚ)) + r))
  else if i < 11 then
    round32 (round64 (round64 (1 + round64 (i * round64 (3 / 10))) + round64 (r / 10)))
  else
    round32 (round64 (round64 (1 / 2 + round64 (i * round64 (2 / 10))) + round64 (r / 10)))

/-- The first `for` loop of `readSimulatedSensors`: `n` iterations from index `i`. -/
def readSimulatedSensorsFrom (env : Env) : Nat → Nat → FArray → M FArray
  | 0, _, values => pure values
  | n + 1, i, values => do
    let r ← random env 0 (simulatedBound i)
    readSimulatedSensorsFrom env n (i + 1) (values.write i (FVal.num (simulatedValue i r)))

/-- `void readSimulatedSensors(float* values)` -/
def readSimulatedSensors (env : Env) (values : FArray) : M FArray := do
  emit (Event.call Proc.readSimulatedSensors)
  readSimulatedSensorsFrom env 13 0 values

/-- `float simulateBatteryLevel()`: `30.0 + random(0, 70)`. The sum, an integer
below 100, is a `double` and a `float` value, so that the two roundings leave
it as it is (`simulateBatteryLevel_exact`). -/
def simulateBatteryLevel (env : Env) : M FVal := do
  emit (Event.call Proc.simulateBatteryLevel)
  let r ← random env 0 70
  pure (FVal.num (30 + r))

/-- The `for` loop of `sendSensorData` filling `sensor1` .. `sensor13`:
`n` iterations from index `i`. -/
def addSensorKeys (sensorValues : FArray) : Nat → Nat → Json → Json
  | 0, _, doc => doc
  | n + 1, i, doc =>
    addSensorKeys sensorValues n (i + 1)
      (doc.set ("sensor" ++ toString (i + 1)) (JVal.num (sensorValues i)))

/-- The JSON document built by `sendSensorData`. -/
def payload (env : Env) (sensorValues : FArray) (batteryLevel : FVal) : Json :=
  ((addSensorKeys sensorValues 13 0 []).set "device_id" (JVal.str env.mac)).set
    "battery" (JVal.num batteryLevel)

/-- What `sendSensorData` does after the POST returned `httpCode`: on success
the response is read and the success message printed; otherwise the message
of the branch of the `switch` is printed, `case HTTPC_ERROR_NOT_CONNECTED`
reconnects, and the response is read when `httpCode > 0`. (The network
diagnostics printed last only query the WiFi object for signal strength and
address.) -/
def afterPOST (env : Env) (httpCode : Int) : M Unit := do
  if httpCode = HTTP_CODE_OK then do
    emit Event.httpGetString
    emit (Event.report Proc.sendSensorData (classify httpCode))
  else do
    emit (Event.report Proc.sendSensorData (classify httpCode))
    if httpCode = HTTPC_ERROR_NOT_CONNECTED then connectToWiFi env else pure ()
    if httpCode > 0 then emit Event.httpGetString else pure ()

/-- `void sendSensorData(float* sensorValues, float batteryLevel)` -/
def sendSensorData (env : Env) (sensorValues : FArray) (batteryLevel : FVal) : M Unit := do
  emit (Event.call Proc.sendSensorData)
  let connected ← wifiConnected env
  if !connected then do
    emit (Event.report Proc.sendSensorData DeliveryOutcome.notConnected)
    connectToWiFi env
  else do
    emit (Event.httpBegin (Url.fixed serverUrl))
    emit Event.httpAddHeader
    let httpCode ← httpPOST env (payload env sensorValues batteryLevel)
    afterPOST env httpCode
    emit Event.httpEnd

/-- The body of the `if` of `loop`: one reporting cycle. -/
def reportingCycle (env : Env) : M Unit := do
  let sensorValues ← readSimulatedSensors env FArray.uninit
  let batteryLevel ← simulateBatteryLevel env
  sendSensorData env sensorValues batteryLevel
  let sent ← millis env
  setLastSendTime sent

/-- `void loop()` -/
def loop (env : Env) : M Unit := do
  let connected ← wifiConnected env
  if !connected then connectToWiFi env else pure ()
  let now ← millis env
  let s ← getSt
  if usub now s.lastSendTime > postingInterval then reportingCycle env else pure ()
  emit (Event.delay 1000)

/-- The first `n` calls of `loop()` made by the Arduino runtime. -/
def loopN (env : Env) : Nat → M Unit
  | 0 => pure ()
  | n + 1 => do
    loop env
    loopN env n

end Hardware

namespace Hardwares

/-- `const char* serverReceiveUrl` -/
def serverReceiveUrl : String := "http://10.5.1.100:8000/api/receive/"

/-- `const char* thingspeakApiKey1` -/
def thingspeakApiKey1 : String := "GL4W6L1MFFO57Y57"

/-- `const char* thingspeakApiKey2` -/
def thingspeakApiKey2 : String := "CCQ5GHPNY7D9PEQB"

/-- `const char* thingspeakUrl` -/
def thingspeakUrl : String := "http://api.thingspeak.com/update"

/-- `#define UV_PIN1 34` -/
def UV_PIN1 : Nat := 34

/-- `#define UV_PIN2 35` -/
def UV_PIN2 : Nat := 35

/-- `void IRAM_ATTR anemometroISR1() { anemoPulses1++; }` -/
def anemometroISR1 (st : St) : St :=
  { st with anemoPulses1 := (st.anemoPulses1 + 1) % ulongMod }

/-- `void IRAM_ATTR anemometroISR2() { anemoPulses2++; }` -/
def anemometroISR2 (st : St) : St :=
  { st with anemoPulses2 := (st.anemoPulses2 + 1) % ulongMod }

/-- The `while` loop of `conectarWiFi`, with `20 - attempts` as argument. -/
def conectarWiFiWait (env : Env) : Nat → M Unit
  | 0 => do
    let _ ← wifiConnected env
    pure ()
  | n + 1 => do
    let connected ← wifiConnected env
    if connected then pure ()
    else do
      emit (Event.delay 500)
      conectarWiFiWait env n

/-- `void conectarWiFi()` -/
def conectarWiFi (env : Env) : M Unit := do
  emit (Event.call Proc.conectarWiFi)
  emit Event.wifiBegin
  conectarWiFiWait env 20
  let _ ← wifiConnected env
  pure ()

/-- The `deltaMillis` of the anemometer block:
`(ultimoMillis == 0) ? 0 : (agora - ultimoMillis)`. -/
def deltaMillis (agora : Nat) (st : St) : Nat :=
  if st.ultimoMillis = 0 then 0 else usub agora st.ultimoMillis

/-- `(float)deltaPulsos * 1000.0f / (float)deltaMillis` -/
def pulsosPorSegundo (deltaPulsos dMillis : Nat) : FVal :=
  FVal.div (FVal.mul (FVal.ofNat deltaPulsos) (FVal.num 1000)) (FVal.ofNat dMillis)

/-- The anemometer block of `ler_sensores` (the rate sampler), from the
clock value `agora` and the snapshot `copiaPulsos1`, `copiaPulsos2` of the two
pulse counters: the values stored in `valores[11]` and `valores[12]`, and the
markers updated for the next measurement. -/
def anemometro (agora copiaPulsos1 copiaPulsos2 : Nat) : M (FVal × FVal) := fun s =>
  let deltaPulsos1 := usub copiaPulsos1 s.ultimosPulsos1
  let deltaPulsos2 := usub copiaPulsos2 s.ultimosPulsos2
  let dMillis := deltaMillis agora s
  { val :=
      if dMillis > 0 then
        (pulsosPorSegundo deltaPulsos1 dMillis, pulsosPorSegundo deltaPulsos2 dMillis)
      else (FVal.num 0, FVal.num 0)
    st := { s with ultimosPulsos1 := copiaPulsos1, ultimosPulsos2 := copiaPulsos2,
                   ultimoMillis := agora }
    events := if dMillis > 0 then [Event.fdiv dMillis, Event.fdiv dMillis] else [] }

/-- `ds18b20.requestTemperatures()`: starts conversion number `r`, returned. -/
def requestTemperatures : M Nat := fun s =>
  { val := s.nRequest, st := { s with nRequest := s.nRequest + 1 },
    events := [Event.requestTemperatures] }

/-- The DS18B20 `for` loop of `ler_sensores`, `n` iterations from index `i`,
reading conversion `r`: `valores[i] = ds18b20.getTempC(dsAddresses[i])`. -/
def lerTemperaturas (env : Env) (r : Nat) : Nat → Nat → FArray → M FArray
  | 0, _, valores => pure valores
  | n + 1, i, valores => do
    emit (Event.getTempC i)
    lerTemperaturas env r n (i + 1) (valores.write i (env.getTempC r i))

/-- `analogRead(pin) * (3.3 / 4095.0)`: the quotient and the product are
computed in `double`, `3.3` being the nearest `double` value, and the result
is stored in a `float`. -/
def tensaoUV (leitura : Nat) : FVal :=
  FVal.num (round32 (round64 (leitura * round64 (round64 (33 / 10) / 4095))))

/-- `void ler_sensores(float* valores)` -/
def ler_sensores (env : Env) (valores : FArray) : M FArray := do
  emit (Event.call Proc.ler_sensores)
  let r ← requestTemperatures
  let valores ← lerTemperaturas env r 6 0 valores
  let h1 ← dhtRead env (Event.readHumidity 1)
  let valores := valores.write 6 h1
  let h2 ← dhtRead env (Event.readHumidity 2)
  let valores := valores.write 7 h2
  let h3 ← dhtRead env (Event.readHumidity 3)
  let valores := valores.write 8 h3
  let uv1 ← analogRead env UV_PIN1
  let valores := valores.write 9 (tensaoUV uv1)
  let uv2 ← analogRead env UV_PIN2
  let valores := valores.write 10 (tensaoUV uv2)
  let agora ← millis env
  let s ← getSt
  let vento ← anemometro agora s.anemoPulses1 s.anemoPulses2
  pure ((valores.write 11 vento.1).write 12 vento.2)

/-- The DS18B20 `for` loop of `enviarDadosServidor`, `n` iterations from
index `i`: the value under `ds18b20_(i+1)` is `valoresSensores[i]` unless
that is NaN, and `0.0` if it is. -/
def addDs18b20Keys (valoresSensores : FArray) : Nat → Nat → Json → Json
  | 0, _, doc => doc
  | n + 1, i, doc =>
    addDs18b20Keys valoresSensores n (i + 1)
      (if !(valoresSensores i).isnan then
        doc.set ("ds18b20_" ++ toString (i + 1)) (JVal.num (valoresSensores i))
      else doc.set ("ds18b20_" ++ toString (i + 1)) (JVal.num (FVal.num 0)))

/-- `isnan(v) ? 0.0 : v` -/
def nanToZero (v : FVal) : FVal := if v.isnan then FVal.num 0 else v

/-- The JSON document built by `enviarDadosServidor` from the array, the four
DHT values read in the procedure and the battery level. -/
def payload (env : Env) (valoresSensores : FArray)
    (dht1_temp dht1_hum dht2_temp dht2_hum : FVal) (battery : Int) : Json :=
  let doc : Json := Json.set [] "monitoring" (JVal.str "brise")
  let doc := addDs18b20Keys valoresSensores 6 0 doc
  let doc := doc.set "dht11_1_temp" (JVal.num (nanToZero dht1_temp))
  let doc := doc.set "dht11_1_hum" (JVal.num (nanToZero dht1_hum))
  let doc := doc.set "dht11_2_temp" (JVal.num (nanToZero dht2_temp))
  let doc := doc.set "dht11_2_hum" (JVal.num (nanToZero dht2_hum))
  let doc := doc.set "uv_1" (JVal.num (valoresSensores 9))
  let doc := doc.set "uv_2" (JVal.num (valoresSensores 10))
  let doc := doc.set "wind_1" (JVal.num (valoresSensores 11))
  let doc := doc.set "wind_2" (JVal.num (valoresSensores 12))
  let doc := doc.set "device_id" (JVal.str env.mac)
  doc.set "battery" (JVal.int battery)

/-- What `enviarDadosServidor` does after the POST returned `httpCode`: on
success the response is read and the success message printed; otherwise the
message of the branch of the `switch` is printed,
`case HTTPC_ERROR_NOT_CONNECTED` reconnects, and the response is read when
`httpCode > 0`. -/
def afterPOST (env : Env) (httpCode : Int) : M Unit := do
  if httpCode = HTTP_CODE_OK then do
    emit Event.httpGetString
    emit (Event.report Proc.enviarDadosServidor (classify httpCode))
  else do
    emit (Event.report Proc.enviarDadosServidor (classify httpCode))
    if httpCode = HTTPC_ERROR_NOT_CONNECTED then conectarWiFi env else pure ()
    if httpCode > 0 then emit Event.httpGetString else pure ()

/-- `void enviarDadosServidor(float* valoresSensores)`. The sketch calls
`simulateBatteryLevel()` without defining it; the definition of the simple
sketch is used. -/
def enviarDadosServidor (env : Env) (valoresSensores : FArray) : M Unit := do
  emit (Event.call Proc.enviarDadosServidor)
  let connected ← wifiConnected env
  if !connected then do
    emit (Event.report Proc.enviarDadosServidor DeliveryOutcome.notConnected)
    conectarWiFi env
  else do
    emit (Event.httpBegin (Url.fixed serverReceiveUrl))
    emit Event.httpAddHeader
    let dht1_temp ← dhtRead env (Event.readTemperature 1)
    let dht1_hum ← dhtRead env (Event.readHumidity 1)
    let dht2_temp ← dhtRead env (Event.readTemperature 2)
    let dht2_hum ← dhtRead env (Event.readHumidity 2)
    let battery ← Hardware.simulateBatteryLevel env
    let httpCode ← httpPOST env
      (payload env valoresSensores dht1_temp dht1_hum dht2_temp dht2_hum battery.roundInt)
    afterPOST env httpCode
    emit Event.httpEnd

/-- The helper `safe` of `enviarThingSpeakCanais`: NaN becomes `0.00`, any
other value is printed with two decimals. -/
def safe (v : FVal) : QVal :=
  match v with
  | FVal.nan => QVal.dec2 0
  | FVal.num q => QVal.dec2 q

/-- The string `url1` of `enviarThingSpeakCanais`. -/
def url1 (valoresSensores : FArray) : Url :=
  Url.query thingspeakUrl thingspeakApiKey1
    [("field1", safe (valoresSensores 6)), ("field2", safe (valoresSensores 7)),
     ("field3", safe (valoresSensores 9)), ("field4", safe (valoresSensores 10)),
     ("field5", safe (valoresSensores 11)), ("field6", safe (valoresSensores 12)),
     ("field7", QVal.lit "0"), ("field8", QVal.lit "0")]

/-- The string `url2` of `enviarThingSpeakCanais`. -/
def url2 (valoresSensores : FArray) : Url :=
  Url.query thingspeakUrl thingspeakApiKey2
    [("field1", safe (valoresSensores 8)), ("field2", safe (valoresSensores 9)),
     ("field3", safe (valoresSensores 10)), ("field4", safe (valoresSensores 11)),
     ("field5", safe (valoresSensores 12)), ("field6", QVal.lit "0")]

/-- The sensor-carrying fields of `url1`, each with the index of the array
element it is built from. -/
def camposCanal1 : List (String × Nat) :=
  [("field1", 6), ("field2", 7), ("field3", 9), ("field4", 10), ("field5", 11), ("field6", 12)]

/-- The sensor-carrying fields of `url2`, each with the index of the array
element it is built from. -/
def camposCanal2 : List (String × Nat) :=
  [("field1", 8), ("field2", 9), ("field3", 10), ("field4", 11), ("field5", 12)]

/-- `void enviarThingSpeakCanais(float* valoresSensores)` -/
def enviarThingSpeakCanais (env : Env) (valoresSensores : FArray) : M Unit := do
  emit (Event.call Proc.enviarThingSpeakCanais)
  let connected ← wifiConnected env
  if !connected then
    emit (Event.report Proc.enviarThingSpeakCanais DeliveryOutcome.notConnected)
  else do
    emit (Event.httpBegin (url1 valoresSensores))
    let httpCode1 ← httpGET env
    emit (Event.auxReport 1 httpCode1)
    emit Event.httpEnd
    emit (Event.httpBegin (url2 valoresSensores))
    let httpCode2 ← httpGET env
    emit (Event.auxReport 2 httpCode2)
    emit Event.httpEnd

/-- The body of the `if` of `loop`: one reporting cycle. -/
def reportingCycle (env : Env) : M Unit := do
  let valoresSensores ← ler_sensores env FArray.uninit
  enviarDadosServidor env valoresSensores
  enviarThingSpeakCanais env valoresSensores
  let sent ← millis env
  setLastSendTime sent

/-- `void loop()` -/
def loop (env : Env) : M Unit := do
  let connected ← wifiConnected env
  if !connected then conectarWiFi env else pure ()
  let now ← millis env
  let s ← getSt
  if usub now s.lastSendTime > postingInterval then reportingCycle env else pure ()
  emit (Event.delay 1000)

/-- The first `n` calls of `loop()` made by the Arduino runtime. -/
def loopN (env : Env) : Nat → M Unit
  | 0 => pure ()
  | n + 1 => do
    loop env
    loopN env n

end Hardwares

/-- The body of a POST, if the event is one. -/
def Event.postBody : Event → Option Json
  | Event.httpPOST body => some body
  | _ => none

/-- The bodies of the POST requests among the events, in order. -/
def postBodies (evs : List Event) : List Json := evs.filterMap Event.postBody

/-- The value of the parameter `name` in the query string of a URL. -/
def Url.field : Url → String → Option QVal
  | Url.fixed _, _ => none
  | Url.query _ _ fields, name => fields.lookup name

/-- The URL of an `http.begin`, if the event is one. -/
def Event.beginUrl : Event → Option Url
  | Event.httpBegin u => some u
  | _ => none

/-- The URLs of the requests begun among the events, in order. -/
def begunUrls (evs : List Event) : List Url := evs.filterMap Event.beginUrl

/-- An environment whose answers never change: link status `connected`,
clock `clock`, HTTP result `code`, every DS18B20 at `temp`. -/
def Env.steady (connected : Bool) (clock : Nat) (code : Int) (temp : FVal) : Env :=
  { status := fun _ => connected, millis := fun _ => clock, random := fun _ => 0,
    httpCode := fun _ => code, getTempC := fun _ _ => temp, dht := fun _ => FVal.num 50,
    analog := fun _ => 0, mac := "24:6F:28:00:00:01" }

/-- An environment in which the link is down at the first status query and
up from the second on; the clock stands at `clock`, requests return `code`. -/
def Env.reconnecting (clock : Nat) (code : Int) : Env :=
  { Env.steady true clock code (FVal.num 20) with status := fun k => decide (1 ≤ k) }

/-- An environment with the link up in which the clock advances by `step`
from one read to the next (the k-th read returns `step * (k + 1)`) and the
k-th read of a DHT driver returns `40 + k`; requests return `code`. -/
def Env.ticking (step : Nat) (code : Int) : Env :=
  { Env.steady true 0 code (FVal.num 20) with
    millis := fun k => step * (k + 1), dht := fun k => FVal.num ((40 + k : Nat) : ℚ) }

/-- A state in which the rate sampler holds a reference taken 296 ms before
the clock wraps, with both pulse counters 6 below their wrap. -/
def St.nearWrap : St :=
  { St.boot with ultimoMillis := 4294967000, ultimosPulsos1 := 4294967290,
                 ultimosPulsos2 := 4294967290 }

/-- A state in which the rate sampler holds the reference (5000, 3, 4) and
the pulse counters stand at 9 and 11. -/
def St.sampled : St :=
  { St.boot with ultimoMillis := 5000, ultimosPulsos1 := 3, ultimosPulsos2 := 4,
                 anemoPulses1 := 9, anemoPulses2 := 11 }

end EcoView

namespace EcoView

/-! ## Auxiliary facts -/

/-- Without wrap, 32-bit subtraction is subtraction. -/
theorem usub_of_le {a b : Nat} (hba : b ≤ a) (ha : a < ulongMod) : usub a b = a - b := by
  unfold usub
  unfold ulongMod at *
  omega

/-- A 32-bit value minus itself is 0. -/
theorem usub_self (a : Nat) : usub a a = 0 := by
  unfold usub
  unfold ulongMod
  omega

/-! ## Binary rounding -/

/-- `log2Fuel` finds the highest set bit when the fuel suffices. -/
theorem log2Fuel_spec : ∀ (fuel n : Nat), n ≤ fuel → n ≠ 0 →
    2 ^ log2Fuel fuel n ≤ n ∧ n < 2 ^ (log2Fuel fuel n + 1) := by
  intro fuel
  induction fuel with
  | zero =>
    intro n h0 hn
    omega
  | succ fuel ih =>
    intro n hle hn
    by_cases h2 : n < 2
    · have h1 : n = 1 := by omega
      subst h1
      simp [log2Fuel]
    · have hdiv : n / 2 ≤ fuel := by omega
      have hne : n / 2 ≠ 0 := by omega
      obtain ⟨l, u⟩ := ih (n / 2) hdiv hne
      simp only [log2Fuel, h2, if_false]
      rw [pow_succ, pow_succ]
      rw [pow_succ] at u
      constructor <;> omega

/-- The highest set bit of a non-zero number. -/
theorem ilog2_spec (n : Nat) (hn : n ≠ 0) : 2 ^ ilog2 n ≤ n ∧ n < 2 ^ (ilog2 n + 1) :=
  log2Fuel_spec n n (Nat.le_refl n) hn

/-- The magnitude of a rational number from its numerator and denominator. -/
theorem abs_eq_natAbs_div_den (x : ℚ) : |x| = (x.num.natAbs : ℚ) / (x.den : ℚ) := by
  have hd : (0 : ℚ) < x.den := by exact_mod_cast x.den_pos
  conv_lhs => rw [← Rat.num_div_den x]
  rw [abs_div, abs_of_pos hd, Nat.cast_natAbs, Int.cast_abs]

/-- The binary exponent brackets the magnitude. -/
theorem binExp_spec (x : ℚ) (hx : x ≠ 0) :
    (2 : ℚ) ^ binExp x ≤ |x| ∧ |x| < (2 : ℚ) ^ (binExp x + 1) := by
  have hn : x.num.natAbs ≠ 0 := by
    simpa [Int.natAbs_eq_zero] using hx
  have hd : x.den ≠ 0 := x.den_nz
  obtain ⟨nl, nu⟩ := ilog2_spec _ hn
  obtain ⟨dl, du⟩ := ilog2_spec _ hd
  have nlq : (2 : ℚ) ^ ilog2 x.num.natAbs ≤ (x.num.natAbs : ℚ) := by exact_mod_cast nl
  have nuq : (x.num.natAbs : ℚ) < (2 : ℚ) ^ (ilog2 x.num.natAbs + 1) := by exact_mod_cast nu
  have dlq : (2 : ℚ) ^ ilog2 x.den ≤ (x.den : ℚ) := by exact_mod_cast dl
  have duq : (x.den : ℚ) < (2 : ℚ) ^ (ilog2 x.den + 1) := by exact_mod_cast du
  have hdpos : (0 : ℚ) < x.den := by exact_mod_cast x.den_pos
  have h2 : (2 : ℚ) ≠ 0 := by norm_num
  have hpa : (0 : ℚ) < (2 : ℚ) ^ ilog2 x.num.natAbs := by positivity
  have hpb : (0 : ℚ) < (2 : ℚ) ^ ilog2 x.den := by positivity
  have habs := abs_eq_natAbs_div_den x
  unfold binExp
  split_ifs with hc
  · refine ⟨hc, ?_⟩
    rw [habs]
    have e1 : (2 : ℚ) ^ ((ilog2 x.num.natAbs : Int) - (ilog2 x.den : Int) + 1)
        = (2 : ℚ) ^ (ilog2 x.num.natAbs + 1) / (2 : ℚ) ^ ilog2 x.den := by
      rw [show (ilog2 x.num.natAbs : Int) - (ilog2 x.den : Int) + 1
            = ((ilog2 x.num.natAbs + 1 : Nat) : Int) - ((ilog2 x.den : Nat) : Int) by
          push_cast; ring]
      rw [zpow_sub₀ h2, zpow_natCast, zpow_natCast]
    rw [e1]
    calc (x.num.natAbs : ℚ) / (x.den : ℚ)
        ≤ (x.num.natAbs : ℚ) / (2 : ℚ) ^ ilog2 x.den :=
          div_le_div_of_nonneg_left (Nat.cast_nonneg _) hpb dlq
      _ < (2 : ℚ) ^ (ilog2 x.num.natAbs + 1) / (2 : ℚ) ^ ilog2 x.den :=
          div_lt_div_of_pos_right nuq hpb
  · constructor
    · rw [habs]
      have e1 : (2 : ℚ) ^ ((ilog2 x.num.natAbs : Int) - (ilog2 x.den : Int) - 1)
          = (2 : ℚ) ^ ilog2 x.num.natAbs / (2 : ℚ) ^ (ilog2 x.den + 1) := by
        rw [show (ilog2 x.num.natAbs : Int) - (ilog2 x.den : Int) - 1
              = ((ilog2 x.num.natAbs : Nat) : Int) - ((ilog2 x.den + 1 : Nat) : Int) by
            push_cast; ring]
        rw [zpow_sub₀ h2, zpow_natCast, zpow_natCast]
      rw [e1]
      have hpb1 : (0 : ℚ) < (2 : ℚ) ^ (ilog2 x.den + 1) := by positivity
      calc (2 : ℚ) ^ ilog2 x.num.natAbs / (2 : ℚ) ^ (ilog2 x.den + 1)
          ≤ (2 : ℚ) ^ ilog2 x.num.natAbs / (x.den : ℚ) :=
            div_le_div_of_nonneg_left hpa.le hdpos duq.le
        _ ≤ (x.num.natAbs : ℚ) / (x.den : ℚ) :=
            div_le_div_of_nonneg_right nlq hdpos.le
    · rw [show (ilog2 x.num.natAbs : Int) - (ilog2 x.den : Int) - 1 + 1
            = (ilog2 x.num.natAbs : Int) - (ilog2 x.den : Int) by ring]
      exact lt_of_not_le hc

/-- Rounding to the nearest integer moves a number by at most one half. -/
theorem roundHalfEven_error (m : ℚ) : |((roundHalfEven m : Int) : ℚ) - m| ≤ 1 / 2 := by
  have h1 : ((Int.floor m : Int) : ℚ) ≤ m := Int.floor_le m
  have h2 : m < ((Int.floor m : Int) : ℚ) + 1 := Int.lt_floor_add_one m
  unfold roundHalfEven
  rw [abs_le]
  split_ifs with c1 c2 c3
  · constructor <;> linarith
  · push_cast
    constructor <;> linarith
  · constructor <;> linarith
  · push_cast
    constructor <;> linarith

/-- An integer is its own nearest integer. -/
theorem roundHalfEven_intCast (k : Int) : roundHalfEven (k : ℚ) = k := by
  simp [roundHalfEven]

/-- Rounding to binary32 moves a number of normal magnitude by at most
`2 ^ (-24)` of it. -/
theorem round32_error (x : ℚ) (hx : (2 : ℚ) ^ (-126 : Int) ≤ |x|) :
    |round32 x - x| ≤ |x| / 2 ^ 24 := by
  have hpos : (0 : ℚ) < |x| := lt_of_lt_of_le (by positivity) hx
  have hx0 : x ≠ 0 := abs_pos.mp hpos
  obtain ⟨lo, hi⟩ := binExp_spec x hx0
  have he : -126 ≤ binExp x := by
    have h := lt_of_le_of_lt hx hi
    rw [zpow_lt_zpow_iff_right₀ (by norm_num : (1 : ℚ) < 2)] at h
    omega
  have hq : (0 : ℚ) < (2 : ℚ) ^ (binExp x - 23) := by positivity
  have hval : round32 x
      = ((roundHalfEven (x / (2 : ℚ) ^ (binExp x - 23)) : Int) : ℚ)
          * (2 : ℚ) ^ (binExp x - 23) := by
    simp [round32, roundBinary, hx0, max_eq_left he]
  have herr := roundHalfEven_error (x / (2 : ℚ) ^ (binExp x - 23))
  have hsplit : round32 x - x
      = (((roundHalfEven (x / (2 : ℚ) ^ (binExp x - 23)) : Int) : ℚ)
          - x / (2 : ℚ) ^ (binExp x - 23)) * (2 : ℚ) ^ (binExp x - 23) := by
    rw [hval, sub_mul, div_mul_cancel₀ _ hq.ne']
  have hhalf : (2 : ℚ) ^ (binExp x - 23) = (2 : ℚ) ^ binExp x / 2 ^ 23 := by
    rw [zpow_sub₀ (by norm_num : (2 : ℚ) ≠ 0)]
    norm_num
  rw [hsplit, abs_mul, abs_of_pos hq]
  calc |((roundHalfEven (x / (2 : ℚ) ^ (binExp x - 23)) : Int) : ℚ)
          - x / (2 : ℚ) ^ (binExp x - 23)| * (2 : ℚ) ^ (binExp x - 23)
      ≤ 1 / 2 * (2 : ℚ) ^ (binExp x - 23) := mul_le_mul_of_nonneg_right herr hq.le
    _ = (2 : ℚ) ^ binExp x / 2 ^ 24 := by
        rw [hhalf]
        ring
    _ ≤ |x| / 2 ^ 24 := div_le_div_of_nonneg_right lo (by positivity)

/-- A positive number of normal magnitude stays within the factors
`1 - 2 ^ (-24)` and `1 + 2 ^ (-24)` when rounded to binary32. -/
theorem round32_bounds (x : ℚ) (hx : (2 : ℚ) ^ (-126 : Int) ≤ x) :
    x * (1 - 1 / 2 ^ 24) ≤ round32 x ∧ round32 x ≤ x * (1 + 1 / 2 ^ 24) := by
  have hpos : (0 : ℚ) < x := lt_of_lt_of_le (by positivity) hx
  have h := round32_error x (by rwa [abs_of_pos hpos])
  rw [abs_of_pos hpos, abs_le] at h
  constructor
  · have := h.1
    linarith
  · have := h.2
    linarith

/-- A natural number below `2 ^ 24` is a binary32 value. -/
theorem round32_natCast (n : Nat) (hn : n < 2 ^ 24) : round32 (n : ℚ) = n := by
  by_cases h0 : n = 0
  · subst h0
    simp [round32, roundBinary]
  have hx0 : (n : ℚ) ≠ 0 := by exact_mod_cast h0
  have h1 : (1 : ℚ) ≤ n := by exact_mod_cast Nat.one_le_iff_ne_zero.mpr h0
  have habs : |(n : ℚ)| = n := abs_of_nonneg (Nat.cast_nonneg n)
  obtain ⟨lo, hi⟩ := binExp_spec (n : ℚ) hx0
  rw [habs] at lo hi
  have he0 : 0 ≤ binExp (n : ℚ) := by
    have h : (2 : ℚ) ^ (0 : Int) < (2 : ℚ) ^ (binExp (n : ℚ) + 1) := by
      rw [zpow_zero]
      exact lt_of_le_of_lt h1 hi
    rw [zpow_lt_zpow_iff_right₀ (by norm_num : (1 : ℚ) < 2)] at h
    omega
  have he23 : binExp (n : ℚ) ≤ 23 := by
    have hn' : (n : ℚ) < (2 : ℚ) ^ (24 : Int) := by
      calc (n : ℚ) < (2 : ℚ) ^ (24 : Nat) := by exact_mod_cast hn
        _ = (2 : ℚ) ^ (24 : Int) := by norm_num
    have h := lt_of_le_of_lt lo hn'
    rw [zpow_lt_zpow_iff_right₀ (by norm_num : (1 : ℚ) < 2)] at h
    omega
  obtain ⟨k, hk⟩ : ∃ k : Nat, binExp (n : ℚ) - 23 = -(k : Int) :=
    ⟨(23 - binExp (n : ℚ)).toNat, by omega⟩
  have hpow : (2 : ℚ) ^ (binExp (n : ℚ) - 23) = ((2 : ℚ) ^ k)⁻¹ := by
    rw [hk, zpow_neg, zpow_natCast]
  have hk0 : (0 : ℚ) < (2 : ℚ) ^ k := by positivity
  have hm : (n : ℚ) / ((2 : ℚ) ^ k)⁻¹ = (((n * 2 ^ k : Nat) : Int) : ℚ) := by
    rw [div_inv_eq_mul]
    push_cast
    ring
  have hval : round32 (n : ℚ)
      = ((roundHalfEven ((n : ℚ) / (2 : ℚ) ^ (binExp (n : ℚ) - 23)) : Int) : ℚ)
          * (2 : ℚ) ^ (binExp (n : ℚ) - 23) := by
    simp [round32, roundBinary, hx0, max_eq_left (by omega : (-126 : Int) ≤ binExp (n : ℚ))]
  rw [hval, hpow, hm, roundHalfEven_intCast]
  push_cast
  field_simp

/-- Rounding a positive natural number to binary32 gives a positive number. -/
theorem round32_natCast_pos (d : Nat) (hd : 0 < d) : 0 < round32 (d : ℚ) := by
  have h1 : (1 : ℚ) ≤ d := by exact_mod_cast hd
  have h := (round32_bounds (d : ℚ) (le_trans (by norm_num) h1)).1
  have hc : (0 : ℚ) < (d : ℚ) * (1 - 1 / 2 ^ 24) := by
    apply mul_pos
    · linarith
    · norm_num
  linarith

/-- The rate of `p` pulses in `d` ms as binary32 arithmetic computes it,
`(float)p * 1000.0f / (float)d` with every step rounded, lies within the
relative error `5 * 2 ^ (-24)` of the exact quotient `p * 1000 / d`. -/
theorem rate32_error (p d : Nat) (hd0 : 0 < d) (hd : d < 2 ^ 32) :
    |round32 (round32 (round32 (p : ℚ) * 1000) / round32 (d : ℚ)) - (p : ℚ) * 1000 / (d : ℚ)|
      ≤ (p : ℚ) * 1000 / (d : ℚ) * (5 / 2 ^ 24) := by
  by_cases hp0 : p = 0
  · subst hp0
    simp [round32, roundBinary]
  have hp1 : (1 : ℚ) ≤ p := by exact_mod_cast Nat.one_le_iff_ne_zero.mpr hp0
  have hd1 : (1 : ℚ) ≤ d := by exact_mod_cast hd0
  have hdu : (d : ℚ) ≤ 2 ^ 32 := by exact_mod_cast hd.le
  have hc1 : (0 : ℚ) < 1 - 1 / 2 ^ 24 := by norm_num
  have hc2 : (0 : ℚ) < 1 + 1 / 2 ^ 24 := by norm_num
  -- the conversion of the pulse count
  obtain ⟨al, au⟩ := round32_bounds (p : ℚ) (le_trans (by norm_num) hp1)
  have apos : (0 : ℚ) < (p : ℚ) * (1 - 1 / 2 ^ 24) := mul_pos (by linarith) hc1
  have aposA : (0 : ℚ) < round32 (p : ℚ) := lt_of_lt_of_le apos al
  -- the product
  have hprod : (2 : ℚ) ^ (-126 : Int) ≤ round32 (p : ℚ) * 1000 := by
    have h1 : (1 : ℚ) * (1 - 1 / 2 ^ 24) ≤ (p : ℚ) * (1 - 1 / 2 ^ 24) :=
      mul_le_mul_of_nonneg_right hp1 hc1.le
    have h2 : (2 : ℚ) ^ (-126 : Int) ≤ 1 := by norm_num
    have h3 : (1 : ℚ) ≤ 1 * (1 - 1 / 2 ^ 24) * 1000 := by norm_num
    nlinarith
  obtain ⟨bl, bu⟩ := round32_bounds (round32 (p : ℚ) * 1000) hprod
  have bl2 : (p : ℚ) * (1 - 1 / 2 ^ 24) * 1000 * (1 - 1 / 2 ^ 24)
      ≤ round32 (round32 (p : ℚ) * 1000) :=
    le_trans (mul_le_mul_of_nonneg_right (mul_le_mul_of_nonneg_right al (by norm_num))
      hc1.le) bl
  have bu2 : round32 (round32 (p : ℚ) * 1000)
      ≤ (p : ℚ) * (1 + 1 / 2 ^ 24) * 1000 * (1 + 1 / 2 ^ 24) :=
    le_trans bu (mul_le_mul_of_nonneg_right (mul_le_mul_of_nonneg_right au (by norm_num))
      hc2.le)
  have bpos : (0 : ℚ) < (p : ℚ) * (1 - 1 / 2 ^ 24) * 1000 * (1 - 1 / 2 ^ 24) :=
    mul_pos (mul_pos apos (by norm_num)) hc1
  have bposB : (0 : ℚ) < round32 (round32 (p : ℚ) * 1000) := lt_of_lt_of_le bpos bl2
  -- the conversion of the elapsed time
  obtain ⟨dl, du⟩ := round32_bounds (d : ℚ) (le_trans (by norm_num) hd1)
  have dpos : (0 : ℚ) < (d : ℚ) * (1 - 1 / 2 ^ 24) := mul_pos (by linarith) hc1
  have dposD : (0 : ℚ) < round32 (d : ℚ) := lt_of_lt_of_le dpos dl
  have dpos2 : (0 : ℚ) < (d : ℚ) * (1 + 1 / 2 ^ 24) := mul_pos (by linarith) hc2
  -- the quotient
  have ql : (p : ℚ) * (1 - 1 / 2 ^ 24) * 1000 * (1 - 1 / 2 ^ 24) / ((d : ℚ) * (1 + 1 / 2 ^ 24))
      ≤ round32 (round32 (p : ℚ) * 1000) / round32 (d : ℚ) :=
    div_le_div₀ bposB.le bl2 dposD du
  have qu : round32 (round32 (p : ℚ) * 1000) / round32 (d : ℚ)
      ≤ (p : ℚ) * (1 + 1 / 2 ^ 24) * 1000 * (1 + 1 / 2 ^ 24) / ((d : ℚ) * (1 - 1 / 2 ^ 24)) :=
    div_le_div₀ (le_trans bposB.le bu2) bu2 dpos dl
  have qnorm : (2 : ℚ) ^ (-126 : Int)
      ≤ round32 (round32 (p : ℚ) * 1000) / round32 (d : ℚ) := by
    refine le_trans ?_ ql
    rw [le_div_iff₀ dpos2]
    have h1 : (2 : ℚ) ^ (-126 : Int) * ((d : ℚ) * (1 + 1 / 2 ^ 24))
        ≤ (2 : ℚ) ^ (-126 : Int) * (2 ^ 32 * (1 + 1 / 2 ^ 24)) :=
      mul_le_mul_of_nonneg_left (mul_le_mul_of_nonneg_right hdu hc2.le) (by positivity)
    have h2 : (2 : ℚ) ^ (-126 : Int) * (2 ^ 32 * (1 + 1 / 2 ^ 24))
        ≤ 1 * (1 - 1 / 2 ^ 24) * 1000 * (1 - 1 / 2 ^ 24) := by norm_num
    have h3 : (1 : ℚ) * (1 - 1 / 2 ^ 24) * 1000 * (1 - 1 / 2 ^ 24)
        ≤ (p : ℚ) * (1 - 1 / 2 ^ 24) * 1000 * (1 - 1 / 2 ^ 24) :=
      mul_le_mul_of_nonneg_right (mul_le_mul_of_nonneg_right
        (mul_le_mul_of_nonneg_right hp1 hc1.le) (by norm_num)) hc1.le
    linarith
  obtain ⟨rl, ru⟩ := round32_bounds _ qnorm
  have qpos : (0 : ℚ) < round32 (round32 (p : ℚ) * 1000) / round32 (d : ℚ) :=
    div_pos bposB dposD
  have hE : (0 : ℚ) ≤ (p : ℚ) * 1000 / (d : ℚ) := by positivity
  have dne : (d : ℚ) ≠ 0 := by linarith
  -- the two sides
  have upper : round32 (round32 (round32 (p : ℚ) * 1000) / round32 (d : ℚ))
      ≤ (p : ℚ) * 1000 / (d : ℚ) * (1 + 5 / 2 ^ 24) := by
    have h1 := le_trans ru (mul_le_mul_of_nonneg_right qu hc2.le)
    have h2 : (p : ℚ) * (1 + 1 / 2 ^ 24) * 1000 * (1 + 1 / 2 ^ 24)
          / ((d : ℚ) * (1 - 1 / 2 ^ 24)) * (1 + 1 / 2 ^ 24)
        = (p : ℚ) * 1000 / (d : ℚ)
          * ((1 + 1 / 2 ^ 24) * (1 + 1 / 2 ^ 24) * (1 + 1 / 2 ^ 24) / (1 - 1 / 2 ^ 24)) := by
      field_simp
      ring
    have h3 : ((1 : ℚ) + 1 / 2 ^ 24) * (1 + 1 / 2 ^ 24) * (1 + 1 / 2 ^ 24) / (1 - 1 / 2 ^ 24)
        ≤ 1 + 5 / 2 ^ 24 := by norm_num
    rw [h2] at h1
    exact le_trans h1 (mul_le_mul_of_nonneg_left h3 hE)
  have lower : (p : ℚ) * 1000 / (d : ℚ) * (1 - 5 / 2 ^ 24)
      ≤ round32 (round32 (round32 (p : ℚ) * 1000) / round32 (d : ℚ)) := by
    have h1 := le_trans (mul_le_mul_of_nonneg_right ql hc1.le) rl
    have h2 : (p : ℚ) * (1 - 1 / 2 ^ 24) * 1000 * (1 - 1 / 2 ^ 24)
          / ((d : ℚ) * (1 + 1 / 2 ^ 24)) * (1 - 1 / 2 ^ 24)
        = (p : ℚ) * 1000 / (d : ℚ)
          * ((1 - 1 / 2 ^ 24) * (1 - 1 / 2 ^ 24) * (1 - 1 / 2 ^ 24) / (1 + 1 / 2 ^ 24)) := by
      field_simp
      ring
    have h3 : (1 : ℚ) - 5 / 2 ^ 24
        ≤ (1 - 1 / 2 ^ 24) * (1 - 1 / 2 ^ 24) * (1 - 1 / 2 ^ 24) / (1 + 1 / 2 ^ 24) := by
      norm_num
    rw [h2] at h1
    exact le_trans (mul_le_mul_of_nonneg_left h3 hE) h1
  rw [abs_le]
  constructor <;> linarith

/-- When the pulse count times 1000 and the elapsed time are below `2 ^ 24`,
only the quotient is rounded: the rate computed in binary32 is the binary32
value nearest to the exact quotient. -/
theorem rate32_nearest (p d : Nat) (hp : p * 1000 < 2 ^ 24) (hd : d < 2 ^ 24) :
    round32 (round32 (round32 (p : ℚ) * 1000) / round32 (d : ℚ))
      = round32 ((p : ℚ) * 1000 / (d : ℚ)) := by
  have h1 : round32 (p : ℚ) = p := round32_natCast p (by omega)
  have h2 : round32 ((p : ℚ) * 1000) = (p : ℚ) * 1000 := by
    have h := round32_natCast (p * 1000) hp
    push_cast at h
    exact h
  rw [h1, h2, round32_natCast d hd]

/-- The sum `30.0 + random(0, 70)` is not changed by its rounding to `double`
and the conversion of the result to `float`. -/
theorem simulateBatteryLevel_exact :
    ∀ r : Fin 70, round32 (round64 (30 + ((r : Nat) : ℚ))) = 30 + ((r : Nat) : ℚ) := by
  decide!

/-- The rate computed from a non-zero `deltaMillis`: the two conversions, the
product and the quotient are each rounded to binary32. -/
theorem pulsosPorSegundo_eq {p d : Nat} (hd : 0 < d) :
    Hardwares.pulsosPorSegundo p d
      = FVal.num (round32 (round32 (round32 (p : ℚ) * 1000) / round32 (d : ℚ))) := by
  have hq : round32 (d : ℚ) ≠ 0 := (round32_natCast_pos d hd).ne'
  simp [Hardwares.pulsosPorSegundo, FVal.div, FVal.mul, FVal.ofNat, hq]

/-- The rate computed from `p` pulses in `d` ms, `0 < d < 2 ^ 32`: a number,
the result of the binary32 operations, within the relative error
`5 * 2 ^ (-24)` of `p * 1000 / d`, and the binary32 value nearest to that
quotient when `p * 1000` and `d` are below `2 ^ 24`. -/
theorem pulsosPorSegundo_spec (p d : Nat) (hd0 : 0 < d) (hd : d < 2 ^ 32) :
    ∃ r : ℚ, Hardwares.pulsosPorSegundo p d = FVal.num r
      ∧ r = round32 (round32 (round32 (p : ℚ) * 1000) / round32 (d : ℚ))
      ∧ |r - (p : ℚ) * 1000 / (d : ℚ)| ≤ (p : ℚ) * 1000 / (d : ℚ) * (5 / 2 ^ 24)
      ∧ (p * 1000 < 2 ^ 24 → d < 2 ^ 24 → r = round32 ((p : ℚ) * 1000 / (d : ℚ))) :=
  ⟨_, pulsosPorSegundo_eq hd0, rfl, rate32_error p d hd0 hd,
    fun hp hd24 => rate32_nearest p d hp hd24⟩

/-- Running two procedures in sequence. -/
theorem run_bind {α β : Type} (m : M α) (f : α → M β) (s : St) :
    (m >>= f) s =
      { val := (f (m s).val (m s).st).val
        st := (f (m s).val (m s).st).st
        events := (m s).events ++ (f (m s).val (m s).st).events } := rfl

@[simp] theorem bind_val {α β : Type} (m : M α) (f : α → M β) (s : St) :
    ((m >>= f) s).val = (f (m s).val (m s).st).val := rfl

@[simp] theorem bind_st {α β : Type} (m : M α) (f : α → M β) (s : St) :
    ((m >>= f) s).st = (f (m s).val (m s).st).st := rfl

@[simp] theorem bind_events {α β : Type} (m : M α) (f : α → M β) (s : St) :
    ((m >>= f) s).events = (m s).events ++ (f (m s).val (m s).st).events := rfl

@[simp] theorem run_pure {α : Type} (a : α) (s : St) :
    (pure a : M α) s = { val := a, st := s, events := [] } := rfl

@[simp] theorem run_ite {α : Type} (c : Prop) [Decidable c] (a b : M α) (s : St) :
    (if c then a else b) s = if c then a s else b s := by
  split <;> rfl

@[simp] theorem emit_run (e : Event) (s : St) :
    emit e s = { val := (), st := s, events := [e] } := rfl

@[simp] theorem getSt_run (s : St) : getSt s = { val := s, st := s, events := [] } := rfl

namespace Hardwares

/-! ## The rate sampler -/

/-- C1 (as stated, refuted): two pairs of updates that satisfy the hypotheses
of the claim. The update at (1000, 2) that follows the update at (0, 0)
reports 0 on both channels, not 2. The update at (1003, 1) that follows the
update at (1000, 0) reports 10922667/32768, the result of the binary32
operations, not 1000/3. -/
theorem C1_reference_at_zero_or_rounded_quotient :
    ((0 : Nat) < 1000 ∧ (0 : Nat) ≤ 2
      ∧ (anemometro 1000 2 2 (anemometro 0 0 0 St.boot).st).val = (FVal.num 0, FVal.num 0)
      ∧ (anemometro 1000 2 2 (anemometro 0 0 0 St.boot).st).val.1
          ≠ FVal.num (((2 : ℚ) - 0) * 1000 / ((1000 : ℚ) - 0)))
    ∧ ((1000 : Nat) < 1003 ∧ (0 : Nat) ≤ 1
      ∧ (anemometro 1003 1 1 (anemometro 1000 0 0 St.boot).st).val
          = (FVal.num (10922667 / 32768), FVal.num (10922667 / 32768))
      ∧ (anemometro 1003 1 1 (anemometro 1000 0 0 St.boot).st).val.1
          ≠ FVal.num (((1 : ℚ) - 0) * 1000 / ((1003 : ℚ) - 1000))) := by
  refine ⟨⟨by decide, by decide, ?_, ?_⟩, ⟨by decide, by decide, ?_, ?_⟩⟩
  · simp [anemometro, deltaMillis, St.boot]
  · simp [anemometro, deltaMillis, St.boot]
  · decide!
  · decide!

/-- C1 (amended): for 32-bit values, when the earlier update was made at a
non-zero time `now1`, the later time `now2` is greater and neither counter
decreased, the later update reports on each channel a number: the result of
`(float)(count2 - count1) * 1000.0f / (float)(now2 - now1)` with the two
conversions, the product and the quotient each rounded to binary32. It lies
within the relative error `5 * 2 ^ (-24)` of
`(count2 - count1) * 1000 / (now2 - now1)`, and it is the binary32 value
nearest to that quotient when `(count2 - count1) * 1000` and `now2 - now1`
are below `2 ^ 24`. This holds whatever the state before the earlier update. -/
theorem C1_rate_between_updates (s : St) (now1 now2 a1 a2 b1 b2 : Nat)
    (h0 : 0 < now1) (hnow : now1 < now2) (hnow2 : now2 < ulongMod)
    (ha : a1 ≤ a2) (ha2 : a2 < ulongMod) (hb : b1 ≤ b2) (hb2 : b2 < ulongMod) :
    ∃ r1 r2 : ℚ,
      (anemometro now2 a2 b2 (anemometro now1 a1 b1 s).st).val = (FVal.num r1, FVal.num r2)
      ∧ r1 = round32 (round32 (round32 ((a2 : ℚ) - a1) * 1000) / round32 ((now2 : ℚ) - now1))
      ∧ r2 = round32 (round32 (round32 ((b2 : ℚ) - b1) * 1000) / round32 ((now2 : ℚ) - now1))
      ∧ |r1 - ((a2 : ℚ) - a1) * 1000 / ((now2 : ℚ) - now1)|
          ≤ ((a2 : ℚ) - a1) * 1000 / ((now2 : ℚ) - now1) * (5 / 2 ^ 24)
      ∧ |r2 - ((b2 : ℚ) - b1) * 1000 / ((now2 : ℚ) - now1)|
          ≤ ((b2 : ℚ) - b1) * 1000 / ((now2 : ℚ) - now1) * (5 / 2 ^ 24)
      ∧ ((a2 - a1) * 1000 < 2 ^ 24 → now2 - now1 < 2 ^ 24 →
          r1 = round32 (((a2 : ℚ) - a1) * 1000 / ((now2 : ℚ) - now1)))
      ∧ ((b2 - b1) * 1000 < 2 ^ 24 → now2 - now1 < 2 ^ 24 →
          r2 = round32 (((b2 : ℚ) - b1) * 1000 / ((now2 : ℚ) - now1))) := by
  have key : ∀ t : St, t.ultimoMillis = now1 → t.ultimosPulsos1 = a1 →
      t.ultimosPulsos2 = b1 →
      (anemometro now2 a2 b2 t).val =
        (pulsosPorSegundo (a2 - a1) (now2 - now1),
         pulsosPorSegundo (b2 - b1) (now2 - now1)) := by
    intro t h1 h2 h3
    have hne : now1 ≠ 0 := by omega
    have hpos : 0 < now2 - now1 := by omega
    simp [anemometro, deltaMillis, h1, h2, h3, hne, usub_of_le hnow.le hnow2,
      usub_of_le ha ha2, usub_of_le hb hb2, hpos, hnow]
  have hpos : 0 < now2 - now1 := by omega
  have hlt : now2 - now1 < 2 ^ 32 := by
    unfold ulongMod at hnow2
    omega
  obtain ⟨r1, e1, f1, g1, n1⟩ := pulsosPorSegundo_spec (a2 - a1) (now2 - now1) hpos hlt
  obtain ⟨r2, e2, f2, g2, n2⟩ := pulsosPorSegundo_spec (b2 - b1) (now2 - now1) hpos hlt
  rw [Nat.cast_sub ha, Nat.cast_sub hnow.le] at f1 g1 n1
  rw [Nat.cast_sub hb, Nat.cast_sub hnow.le] at f2 g2 n2
  exact ⟨r1, r2, by rw [key _ rfl rfl rfl, e1, e2], f1, f2, g1, g2, n1, n2⟩

/-- C1 (witness): the update at (2000, 2) after the update at (1000, 0)
reports 2 pulses per second, exactly. -/
theorem C1_rate_between_updates_witness :
    (anemometro 2000 2 2 (anemometro 1000 0 0 St.boot).st).val = (FVal.num 2, FVal.num 2) := by
  obtain ⟨r1, r2, hv, _, _, _, _, n1, n2⟩ :=
    C1_rate_between_updates St.boot 1000 2000 0 2 0 2 (by decide) (by decide)
      (by unfold ulongMod; decide) (by decide) (by unfold ulongMod; decide) (by decide)
      (by unfold ulongMod; decide)
  rw [hv, n1 (by decide) (by decide), n2 (by decide) (by decide)]
  decide!

/-- C2: in a state where the time marker of the rate sampler still has its
initial value 0 (no update was made since boot), `ler_sensores` stores 0 in
`valores[11]` and `valores[12]` whatever the pulse counters and the clock are,
performs no division, and leaves the clock value it read and the two counter
snapshots in the markers. The same holds of the anemometer block for every
clock value and every pair of snapshots. -/
theorem C2_first_update_reports_zero (env : Env) (valores : FArray) (s : St)
    (agora copia1 copia2 : Nat) (hm : s.ultimoMillis = 0) :
    ((anemometro agora copia1 copia2 s).val = (FVal.num 0, FVal.num 0)
      ∧ (anemometro agora copia1 copia2 s).events = []
      ∧ (anemometro agora copia1 copia2 s).st.ultimoMillis = agora
      ∧ (anemometro agora copia1 copia2 s).st.ultimosPulsos1 = copia1
      ∧ (anemometro agora copia1 copia2 s).st.ultimosPulsos2 = copia2)
    ∧ (ler_sensores env valores s).val 11 = FVal.num 0
    ∧ (ler_sensores env valores s).val 12 = FVal.num 0
    ∧ (ler_sensores env valores s).events.filter Event.isDiv = []
    ∧ (ler_sensores env valores s).st.ultimoMillis = env.millis s.nMillis % ulongMod
    ∧ (ler_sensores env valores s).st.ultimosPulsos1 = s.anemoPulses1
    ∧ (ler_sensores env valores s).st.ultimosPulsos2 = s.anemoPulses2 := by
  refine ⟨?_, ?_⟩
  · simp [anemometro, deltaMillis, hm]
  · simp [ler_sensores, lerTemperaturas, requestTemperatures, dhtRead, analogRead, millis,
      anemometro, deltaMillis, hm, FArray.write, Event.isDiv]

/-- C2 (witness): the first update after boot, at clock value 31000 with
counters 5 and 7. -/
theorem C2_first_update_reports_zero_witness :
    (anemometro 31000 5 7 St.boot).val = (FVal.num 0, FVal.num 0)
      ∧ (anemometro 31000 5 7 St.boot).st.ultimoMillis = 31000 :=
  ⟨(C2_first_update_reports_zero
      (Env.steady true 31000 200 (FVal.num 20)) FArray.uninit St.boot 31000 5 7 rfl).1.1,
   (C2_first_update_reports_zero
      (Env.steady true 31000 200 (FVal.num 20)) FArray.uninit St.boot 31000 5 7 rfl).1.2.2.1⟩

/-- C3: an update whose clock value equals the stored time marker has a zero
`deltaMillis`, reports 0 on both channels without any division, and still
replaces the markers by the current counter snapshots and clock value; so
does `ler_sensores` when `millis()` returns the stored marker. -/
theorem C3_same_timestamp_reports_zero (env : Env) (valores : FArray) (s : St)
    (copia1 copia2 : Nat) (h : env.millis s.nMillis % ulongMod = s.ultimoMillis) :
    (deltaMillis s.ultimoMillis s = 0
      ∧ (anemometro s.ultimoMillis copia1 copia2 s).val = (FVal.num 0, FVal.num 0)
      ∧ (anemometro s.ultimoMillis copia1 copia2 s).events = []
      ∧ (anemometro s.ultimoMillis copia1 copia2 s).st.ultimoMillis = s.ultimoMillis
      ∧ (anemometro s.ultimoMillis copia1 copia2 s).st.ultimosPulsos1 = copia1
      ∧ (anemometro s.ultimoMillis copia1 copia2 s).st.ultimosPulsos2 = copia2)
    ∧ (ler_sensores env valores s).val 11 = FVal.num 0
    ∧ (ler_sensores env valores s).val 12 = FVal.num 0
    ∧ (ler_sensores env valores s).events.filter Event.isDiv = []
    ∧ (ler_sensores env valores s).st.ultimoMillis = s.ultimoMillis
    ∧ (ler_sensores env valores s).st.ultimosPulsos1 = s.anemoPulses1
    ∧ (ler_sensores env valores s).st.ultimosPulsos2 = s.anemoPulses2 := by
  have hd : deltaMillis s.ultimoMillis s = 0 := by
    simp [deltaMillis, usub_self]
  refine ⟨?_, ?_⟩
  · simp [anemometro, hd]
  · simp [ler_sensores, lerTemperaturas, requestTemperatures, dhtRead, analogRead, millis,
      anemometro, deltaMillis, h, usub_self, FArray.write, Event.isDiv]

/-- C3 (witness): from the markers (5000, 3, 4), an update at clock value
5000 again with the counters at 9 and 11. -/
theorem C3_same_timestamp_reports_zero_witness :
    (anemometro 5000 9 11 St.sampled).val = (FVal.num 0, FVal.num 0)
    ∧ (anemometro 5000 9 11 St.sampled).st.ultimosPulsos1 = 9 :=
  ⟨(C3_same_timestamp_reports_zero
      (Env.steady true 5000 200 (FVal.num 20)) FArray.uninit St.sampled 9 11 (by decide)).1.2.1,
   (C3_same_timestamp_reports_zero
      (Env.steady true 5000 200 (FVal.num 20)) FArray.uninit St.sampled 9 11 (by decide)).1.2.2.2.2.1⟩

end Hardwares


/-! ## The reconnection procedures -/

/-- The `while` loop of `connectToWiFi` only polls the status and waits, and
changes nothing of the state but the number of status queries. -/
theorem Hardware.connectToWiFiWait_spec (env : Env) (n : Nat) :
    ∀ s : St, ∃ k evs,
      Hardware.connectToWiFiWait env n s
        = { val := (), st := { s with nStatus := k }, events := evs }
      ∧ ∀ e ∈ evs, e = Event.wifiStatus ∨ e = Event.delay 500 := by
  induction n with
  | zero =>
    intro s
    exact ⟨s.nStatus + 1, [Event.wifiStatus], by simp [Hardware.connectToWiFiWait, run_bind, wifiConnected],
      by simp⟩
  | succ n ih =>
    intro s
    cases hc : env.status s.nStatus with
    | true =>
      exact ⟨s.nStatus + 1, [Event.wifiStatus],
        by simp [Hardware.connectToWiFiWait, run_bind, wifiConnected, hc], by simp⟩
    | false =>
      obtain ⟨k, evs, hk, hev⟩ := ih { s with nStatus := s.nStatus + 1 }
      refine ⟨k, Event.wifiStatus :: Event.delay 500 :: evs, ?_, ?_⟩
      · simp [Hardware.connectToWiFiWait, run_bind, wifiConnected, hc, hk]
      · intro e he
        simp only [List.mem_cons] at he
        rcases he with he | he | he
        · exact Or.inl he
        · exact Or.inr he
        · exact hev e he

/-- All that `connectToWiFi` does: it is entered, calls `WiFi.begin`, and then
only polls the status and waits; of the state only the number of status
queries changes. -/
theorem Hardware.connectToWiFi_spec (env : Env) (s : St) :
    ∃ k evs,
      Hardware.connectToWiFi env s
        = { val := (), st := { s with nStatus := k },
            events := Event.call Proc.connectToWiFi :: Event.wifiBegin :: evs }
      ∧ ∀ e ∈ evs, e = Event.wifiStatus ∨ e = Event.delay 500 := by
  obtain ⟨k, evs, hk, hev⟩ := Hardware.connectToWiFiWait_spec env 20 s
  refine ⟨k + 1, evs ++ [Event.wifiStatus], ?_, ?_⟩
  · simp [Hardware.connectToWiFi, run_bind, wifiConnected, hk]
  · intro e he
    simp only [List.mem_append, List.mem_singleton] at he
    rcases he with he | he
    · exact hev e he
    · exact Or.inl he

/-- The `while` loop of `conectarWiFi` only polls the status and waits, and
changes nothing of the state but the number of status queries. -/
theorem Hardwares.conectarWiFiWait_spec (env : Env) (n : Nat) :
    ∀ s : St, ∃ k evs,
      Hardwares.conectarWiFiWait env n s
        = { val := (), st := { s with nStatus := k }, events := evs }
      ∧ ∀ e ∈ evs, e = Event.wifiStatus ∨ e = Event.delay 500 := by
  induction n with
  | zero =>
    intro s
    exact ⟨s.nStatus + 1, [Event.wifiStatus], by simp [Hardwares.conectarWiFiWait, run_bind, wifiConnected],
      by simp⟩
  | succ n ih =>
    intro s
    cases hc : env.status s.nStatus with
    | true =>
      exact ⟨s.nStatus + 1, [Event.wifiStatus],
        by simp [Hardwares.conectarWiFiWait, run_bind, wifiConnected, hc], by simp⟩
    | false =>
      obtain ⟨k, evs, hk, hev⟩ := ih { s with nStatus := s.nStatus + 1 }
      refine ⟨k, Event.wifiStatus :: Event.delay 500 :: evs, ?_, ?_⟩
      · simp [Hardwares.conectarWiFiWait, run_bind, wifiConnected, hc, hk]
      · intro e he
        simp only [List.mem_cons] at he
        rcases he with he | he | he
        · exact Or.inl he
        · exact Or.inr he
        · exact hev e he

/-- All that `conectarWiFi` does: it is entered, calls `WiFi.begin`, and then
only polls the status and waits; of the state only the number of status
queries changes. -/
theorem Hardwares.conectarWiFi_spec (env : Env) (s : St) :
    ∃ k evs,
      Hardwares.conectarWiFi env s
        = { val := (), st := { s with nStatus := k },
            events := Event.call Proc.conectarWiFi :: Event.wifiBegin :: evs }
      ∧ ∀ e ∈ evs, e = Event.wifiStatus ∨ e = Event.delay 500 := by
  obtain ⟨k, evs, hk, hev⟩ := Hardwares.conectarWiFiWait_spec env 20 s
  refine ⟨k + 1, evs ++ [Event.wifiStatus], ?_, ?_⟩
  · simp [Hardwares.conectarWiFi, run_bind, wifiConnected, hk]
  · intro e he
    simp only [List.mem_append, List.mem_singleton] at he
    rcases he with he | he
    · exact hev e he
    · exact Or.inl he

/-- Polling and waiting involve no HTTP call. -/
theorem filter_isHttp_polling {evs : List Event}
    (h : ∀ e ∈ evs, e = Event.wifiStatus ∨ e = Event.delay 500) :
    evs.filter Event.isHttp = [] := by
  rw [List.filter_eq_nil_iff]
  intro e he
  rcases h e he with rfl | rfl <;> simp [Event.isHttp]

/-- Polling and waiting enter no procedure. -/
theorem call_not_mem_polling {evs : List Event} (p : Proc)
    (h : ∀ e ∈ evs, e = Event.wifiStatus ∨ e = Event.delay 500) :
    Event.call p ∉ evs := by
  intro he
  rcases h _ he with h1 | h1 <;> exact Event.noConfusion h1

/-! ## Delivery while the link is down -/

/-- C4: when `WiFi.status()` does not answer `WL_CONNECTED` at entry, each of
`sendSensorData`, `enviarDadosServidor` and `enviarThingSpeakCanais` reports
the not-connected failure and makes no call to the HTTP client, for every
sensor array and battery level: no HTTP event is recorded and no result of a
request is consumed. -/
theorem C4_disconnected_delivery_makes_no_http_call (env : Env) (s : St)
    (valores : FArray) (batteryLevel : FVal) (h : env.status s.nStatus = false) :
    (Event.report Proc.sendSensorData DeliveryOutcome.notConnected
        ∈ (Hardware.sendSensorData env valores batteryLevel s).events
      ∧ (Hardware.sendSensorData env valores batteryLevel s).events.filter Event.isHttp = []
      ∧ (Hardware.sendSensorData env valores batteryLevel s).st.nHttp = s.nHttp)
    ∧ (Event.report Proc.enviarDadosServidor DeliveryOutcome.notConnected
        ∈ (Hardwares.enviarDadosServidor env valores s).events
      ∧ (Hardwares.enviarDadosServidor env valores s).events.filter Event.isHttp = []
      ∧ (Hardwares.enviarDadosServidor env valores s).st.nHttp = s.nHttp)
    ∧ (Hardwares.enviarThingSpeakCanais env valores s).events
        = [Event.call Proc.enviarThingSpeakCanais, Event.wifiStatus,
           Event.report Proc.enviarThingSpeakCanais DeliveryOutcome.notConnected]
      ∧ (Hardwares.enviarThingSpeakCanais env valores s).st.nHttp = s.nHttp := by
  obtain ⟨k1, evs1, hk1, hev1⟩ :=
    Hardware.connectToWiFi_spec env { s with nStatus := s.nStatus + 1 }
  obtain ⟨k2, evs2, hk2, hev2⟩ :=
    Hardwares.conectarWiFi_spec env { s with nStatus := s.nStatus + 1 }
  refine ⟨?_, ?_, ?_⟩
  · simp [Hardware.sendSensorData, wifiConnected, h, hk1, Event.isHttp,
      filter_isHttp_polling hev1]
  · simp [Hardwares.enviarDadosServidor, wifiConnected, h, hk2, Event.isHttp,
      filter_isHttp_polling hev2]
  · simp [Hardwares.enviarThingSpeakCanais, wifiConnected, h]

/-- C4 (witness): the three procedures at boot with the link down. -/
theorem C4_disconnected_delivery_makes_no_http_call_witness :
    (Hardware.sendSensorData (Env.steady false 40000 200 (FVal.num 20)) FArray.uninit
        (FVal.num 50) St.boot).events.filter Event.isHttp = []
    ∧ (Hardwares.enviarDadosServidor (Env.steady false 40000 200 (FVal.num 20)) FArray.uninit
        St.boot).events.filter Event.isHttp = []
    ∧ (Hardwares.enviarThingSpeakCanais (Env.steady false 40000 200 (FVal.num 20)) FArray.uninit
        St.boot).events
        = [Event.call Proc.enviarThingSpeakCanais, Event.wifiStatus,
           Event.report Proc.enviarThingSpeakCanais DeliveryOutcome.notConnected] :=
  ⟨(C4_disconnected_delivery_makes_no_http_call (Env.steady false 40000 200 (FVal.num 20))
      St.boot FArray.uninit (FVal.num 50) rfl).1.2.1,
   (C4_disconnected_delivery_makes_no_http_call (Env.steady false 40000 200 (FVal.num 20))
      St.boot FArray.uninit (FVal.num 50) rfl).2.1.2.1,
   (C4_disconnected_delivery_makes_no_http_call (Env.steady false 40000 200 (FVal.num 20))
      St.boot FArray.uninit (FVal.num 50) rfl).2.2.1⟩

/-- C5 (as stated, refuted): with the link down at entry, `sendSensorData` and
`enviarDadosServidor` do enter the reconnection procedure. -/
theorem C5_disconnected_send_reconnects :
    (Env.steady false 40000 200 (FVal.num 20)).status St.boot.nStatus = false
    ∧ Event.call Proc.connectToWiFi
        ∈ (Hardware.sendSensorData (Env.steady false 40000 200 (FVal.num 20)) FArray.uninit
            (FVal.num 50) St.boot).events
    ∧ Event.call Proc.conectarWiFi
        ∈ (Hardwares.enviarDadosServidor (Env.steady false 40000 200 (FVal.num 20))
            FArray.uninit St.boot).events := by
  refine ⟨rfl, ?_, ?_⟩
  · simp [Hardware.sendSensorData, Hardware.connectToWiFi, wifiConnected, Env.steady, St.boot]
  · simp [Hardwares.enviarDadosServidor, Hardwares.conectarWiFi, wifiConnected, Env.steady,
      St.boot]

/-- C5 (amended): with the link down at entry, the primary delivery call does
nothing but check the status, report the failure and run the reconnection
procedure, which it enters exactly once; it makes no request. -/
theorem C5_disconnected_send_reconnects_once (env : Env) (s : St)
    (valores : FArray) (batteryLevel : FVal) (h : env.status s.nStatus = false) :
    ((Hardware.sendSensorData env valores batteryLevel s).events
        = [Event.call Proc.sendSensorData, Event.wifiStatus,
           Event.report Proc.sendSensorData DeliveryOutcome.notConnected]
          ++ (Hardware.connectToWiFi env { s with nStatus := s.nStatus + 1 }).events
      ∧ (Hardware.sendSensorData env valores batteryLevel s).events.count
          (Event.call Proc.connectToWiFi) = 1)
    ∧ ((Hardwares.enviarDadosServidor env valores s).events
        = [Event.call Proc.enviarDadosServidor, Event.wifiStatus,
           Event.report Proc.enviarDadosServidor DeliveryOutcome.notConnected]
          ++ (Hardwares.conectarWiFi env { s with nStatus := s.nStatus + 1 }).events
      ∧ (Hardwares.enviarDadosServidor env valores s).events.count
          (Event.call Proc.conectarWiFi) = 1) := by
  obtain ⟨k1, evs1, hk1, hev1⟩ :=
    Hardware.connectToWiFi_spec env { s with nStatus := s.nStatus + 1 }
  obtain ⟨k2, evs2, hk2, hev2⟩ :=
    Hardwares.conectarWiFi_spec env { s with nStatus := s.nStatus + 1 }
  have c1 : evs1.count (Event.call Proc.connectToWiFi) = 0 :=
    List.count_eq_zero_of_not_mem (call_not_mem_polling _ hev1)
  have c2 : evs2.count (Event.call Proc.conectarWiFi) = 0 :=
    List.count_eq_zero_of_not_mem (call_not_mem_polling _ hev2)
  refine ⟨?_, ?_⟩
  · simp [Hardware.sendSensorData, wifiConnected, h, hk1, List.count_cons, c1]
  · simp [Hardwares.enviarDadosServidor, wifiConnected, h, hk2, List.count_cons, c2]

/-- C5 (witness): the simple sketch at boot with the link down. -/
theorem C5_disconnected_send_reconnects_once_witness :
    (Hardware.sendSensorData (Env.steady false 40000 200 (FVal.num 20)) FArray.uninit
        (FVal.num 50) St.boot).events.count (Event.call Proc.connectToWiFi) = 1 :=
  (C5_disconnected_send_reconnects_once (Env.steady false 40000 200 (FVal.num 20)) St.boot
    FArray.uninit (FVal.num 50) rfl).1.2


/-! ## Classification of the result of the primary POST -/

/-- The reconnection procedure of the simple sketch changes nothing of the
state but the number of status queries. -/
theorem Hardware.connectToWiFi_frame (env : Env) (s : St) :
    (Hardware.connectToWiFi env s).st.nMillis = s.nMillis
    ∧ (Hardware.connectToWiFi env s).st.lastSendTime = s.lastSendTime
    ∧ (Hardware.connectToWiFi env s).st.nHttp = s.nHttp := by
  obtain ⟨k, evs, hk, _⟩ := Hardware.connectToWiFi_spec env s
  simp [hk]

/-- The reconnection procedure of the extended sketch changes nothing of the
state but the number of status queries. -/
theorem Hardwares.conectarWiFi_frame (env : Env) (s : St) :
    (Hardwares.conectarWiFi env s).st.nMillis = s.nMillis
    ∧ (Hardwares.conectarWiFi env s).st.lastSendTime = s.lastSendTime
    ∧ (Hardwares.conectarWiFi env s).st.nHttp = s.nHttp := by
  obtain ⟨k, evs, hk, _⟩ := Hardwares.conectarWiFi_spec env s
  simp [hk]

/-- What follows the POST in `sendSensorData` neither reads the clock nor
touches `lastSendTime`. -/
theorem Hardware.afterPOST_frame_simple (env : Env) (code : Int) (s : St) :
    (Hardware.afterPOST env code s).st.nMillis = s.nMillis
    ∧ (Hardware.afterPOST env code s).st.lastSendTime = s.lastSendTime := by
  simp only [Hardware.afterPOST, run_bind, run_ite, run_pure, emit_run]
  split_ifs <;> simp [Hardware.connectToWiFi_frame]

/-- What follows the POST in `enviarDadosServidor` neither reads the clock nor
touches `lastSendTime`. -/
theorem Hardwares.afterPOST_frame_extended (env : Env) (code : Int) (s : St) :
    (Hardwares.afterPOST env code s).st.nMillis = s.nMillis
    ∧ (Hardwares.afterPOST env code s).st.lastSendTime = s.lastSendTime := by
  simp only [Hardwares.afterPOST, run_bind, run_ite, run_pure, emit_run]
  split_ifs <;> simp [Hardwares.conectarWiFi_frame]

/-- `sendSensorData` neither reads the clock nor touches `lastSendTime`. -/
theorem Hardware.sendSensorData_frame (env : Env) (valores : FArray) (b : FVal) (s : St) :
    (Hardware.sendSensorData env valores b s).st.nMillis = s.nMillis
    ∧ (Hardware.sendSensorData env valores b s).st.lastSendTime = s.lastSendTime := by
  cases hc : env.status s.nStatus <;>
    simp [Hardware.sendSensorData, wifiConnected, httpPOST, hc, Hardware.connectToWiFi_frame,
      Hardware.afterPOST_frame_simple]

/-- `enviarDadosServidor` neither reads the clock nor touches `lastSendTime`. -/
theorem Hardwares.enviarDadosServidor_frame (env : Env) (valores : FArray) (s : St) :
    (Hardwares.enviarDadosServidor env valores s).st.nMillis = s.nMillis
    ∧ (Hardwares.enviarDadosServidor env valores s).st.lastSendTime = s.lastSendTime := by
  cases hc : env.status s.nStatus <;>
    simp [Hardwares.enviarDadosServidor, Hardware.simulateBatteryLevel, random, dhtRead,
      wifiConnected, httpPOST, hc, Hardwares.conectarWiFi_frame, Hardwares.afterPOST_frame_extended]

/-- `enviarThingSpeakCanais` neither reads the clock nor touches `lastSendTime`. -/
theorem Hardwares.enviarThingSpeakCanais_frame (env : Env) (valores : FArray) (s : St) :
    (Hardwares.enviarThingSpeakCanais env valores s).st.nMillis = s.nMillis
    ∧ (Hardwares.enviarThingSpeakCanais env valores s).st.lastSendTime = s.lastSendTime := by
  cases hc : env.status s.nStatus <;>
    simp [Hardwares.enviarThingSpeakCanais, wifiConnected, httpGET, hc]

/-- `ler_sensores` reads the clock once and does not touch `lastSendTime`. -/
theorem Hardwares.ler_sensores_frame (env : Env) (valores : FArray) (s : St) :
    (Hardwares.ler_sensores env valores s).st.nMillis = s.nMillis + 1
    ∧ (Hardwares.ler_sensores env valores s).st.lastSendTime = s.lastSendTime := by
  simp [Hardwares.ler_sensores, Hardwares.lerTemperaturas, Hardwares.requestTemperatures,
    dhtRead, analogRead, millis, Hardwares.anemometro]

/-- A reporting cycle of the simple sketch enters acquisition and delivery,
and ends by storing in `lastSendTime` the clock value it reads last. -/
theorem Hardware.reportingCycle_spec_simple (env : Env) (s : St) :
    Event.call Proc.readSimulatedSensors ∈ (Hardware.reportingCycle env s).events
    ∧ Event.call Proc.sendSensorData ∈ (Hardware.reportingCycle env s).events
    ∧ (Hardware.reportingCycle env s).st.lastSendTime = env.millis s.nMillis % ulongMod
    ∧ (Hardware.reportingCycle env s).st.nMillis = s.nMillis + 1 := by
  refine ⟨?_, ?_, ?_, ?_⟩
  · simp [Hardware.reportingCycle, Hardware.readSimulatedSensors]
  · simp [Hardware.reportingCycle, Hardware.sendSensorData]
  · simp [Hardware.reportingCycle, millis, setLastSendTime, Hardware.sendSensorData_frame,
      Hardware.simulateBatteryLevel, random, Hardware.readSimulatedSensors,
      Hardware.readSimulatedSensorsFrom]
  · simp [Hardware.reportingCycle, millis, setLastSendTime, Hardware.sendSensorData_frame,
      Hardware.simulateBatteryLevel, random, Hardware.readSimulatedSensors,
      Hardware.readSimulatedSensorsFrom]

/-- A reporting cycle of the extended sketch enters acquisition and the two
deliveries, and ends by storing in `lastSendTime` the clock value it reads
last (the one before is read by `ler_sensores`). -/
theorem Hardwares.reportingCycle_spec_extended (env : Env) (s : St) :
    Event.call Proc.ler_sensores ∈ (Hardwares.reportingCycle env s).events
    ∧ Event.call Proc.enviarDadosServidor ∈ (Hardwares.reportingCycle env s).events
    ∧ Event.call Proc.enviarThingSpeakCanais ∈ (Hardwares.reportingCycle env s).events
    ∧ (Hardwares.reportingCycle env s).st.lastSendTime = env.millis (s.nMillis + 1) % ulongMod
    ∧ (Hardwares.reportingCycle env s).st.nMillis = s.nMillis + 2 := by
  refine ⟨?_, ?_, ?_, ?_, ?_⟩
  · simp [Hardwares.reportingCycle, Hardwares.ler_sensores]
  · simp [Hardwares.reportingCycle, Hardwares.enviarDadosServidor]
  · simp [Hardwares.reportingCycle, Hardwares.enviarThingSpeakCanais]
  · simp [Hardwares.reportingCycle, millis, setLastSendTime,
      Hardwares.enviarThingSpeakCanais_frame, Hardwares.enviarDadosServidor_frame,
      Hardwares.ler_sensores_frame]
  · simp [Hardwares.reportingCycle, millis, setLastSendTime,
      Hardwares.enviarThingSpeakCanais_frame, Hardwares.enviarDadosServidor_frame,
      Hardwares.ler_sensores_frame]


/-- One call of `loop()` in the simple sketch: a prologue `pre` of status
queries and, when the link is down, the reconnection; then the clock is read
and either a reporting cycle runs or nothing happens, and the sketch waits one
second. -/
theorem Hardware.loop_spec_simple (env : Env) (s : St) :
    ∃ k pre,
      (∀ e ∈ pre, e = Event.wifiStatus ∨ e = Event.delay 500
          ∨ e = Event.call Proc.connectToWiFi ∨ e = Event.wifiBegin)
      ∧ (env.status s.nStatus = false → Event.call Proc.connectToWiFi ∈ pre)
      ∧ (postingInterval < usub (env.millis s.nMillis % ulongMod) s.lastSendTime →
          (Hardware.loop env s).st
            = (Hardware.reportingCycle env { s with nStatus := k, nMillis := s.nMillis + 1 }).st
          ∧ (Hardware.loop env s).events
            = pre ++ Event.millis ::
                ((Hardware.reportingCycle env
                    { s with nStatus := k, nMillis := s.nMillis + 1 }).events
                  ++ [Event.delay 1000]))
      ∧ (¬ postingInterval < usub (env.millis s.nMillis % ulongMod) s.lastSendTime →
          (Hardware.loop env s).st = { s with nStatus := k, nMillis := s.nMillis + 1 }
          ∧ (Hardware.loop env s).events = pre ++ [Event.millis, Event.delay 1000]) := by
  cases hc : env.status s.nStatus with
  | true =>
    refine ⟨s.nStatus + 1, [Event.wifiStatus], by simp, by simp, ?_, ?_⟩
    · intro hg
      simp [Hardware.loop, wifiConnected, millis, hc, hg]
    · intro hg
      simp [Hardware.loop, wifiConnected, millis, hc, hg]
  | false =>
    obtain ⟨k, evs, hk, hev⟩ :=
      Hardware.connectToWiFi_spec env { s with nStatus := s.nStatus + 1 }
    refine ⟨k, Event.wifiStatus :: Event.call Proc.connectToWiFi :: Event.wifiBegin :: evs,
      ?_, by simp, ?_, ?_⟩
    · intro e he
      simp only [List.mem_cons] at he
      rcases he with he | he | he | he
      · exact Or.inl he
      · exact Or.inr (Or.inr (Or.inl he))
      · exact Or.inr (Or.inr (Or.inr he))
      · rcases hev e he with h1 | h1
        · exact Or.inl h1
        · exact Or.inr (Or.inl h1)
    · intro hg
      simp [Hardware.loop, wifiConnected, millis, hc, hk, hg]
    · intro hg
      simp [Hardware.loop, wifiConnected, millis, hc, hk, hg]

/-- One call of `loop()` in the extended sketch, as for the simple one. -/
theorem Hardwares.loop_spec_extended (env : Env) (s : St) :
    ∃ k pre,
      (∀ e ∈ pre, e = Event.wifiStatus ∨ e = Event.delay 500
          ∨ e = Event.call Proc.conectarWiFi ∨ e = Event.wifiBegin)
      ∧ (env.status s.nStatus = false → Event.call Proc.conectarWiFi ∈ pre)
      ∧ (postingInterval < usub (env.millis s.nMillis % ulongMod) s.lastSendTime →
          (Hardwares.loop env s).st
            = (Hardwares.reportingCycle env { s with nStatus := k, nMillis := s.nMillis + 1 }).st
          ∧ (Hardwares.loop env s).events
            = pre ++ Event.millis ::
                ((Hardwares.reportingCycle env
                    { s with nStatus := k, nMillis := s.nMillis + 1 }).events
                  ++ [Event.delay 1000]))
      ∧ (¬ postingInterval < usub (env.millis s.nMillis % ulongMod) s.lastSendTime →
          (Hardwares.loop env s).st = { s with nStatus := k, nMillis := s.nMillis + 1 }
          ∧ (Hardwares.loop env s).events = pre ++ [Event.millis, Event.delay 1000]) := by
  cases hc : env.status s.nStatus with
  | true =>
    refine ⟨s.nStatus + 1, [Event.wifiStatus], by simp, by simp, ?_, ?_⟩
    · intro hg
      simp [Hardwares.loop, wifiConnected, millis, hc, hg]
    · intro hg
      simp [Hardwares.loop, wifiConnected, millis, hc, hg]
  | false =>
    obtain ⟨k, evs, hk, hev⟩ :=
      Hardwares.conectarWiFi_spec env { s with nStatus := s.nStatus + 1 }
    refine ⟨k, Event.wifiStatus :: Event.call Proc.conectarWiFi :: Event.wifiBegin :: evs,
      ?_, by simp, ?_, ?_⟩
    · intro e he
      simp only [List.mem_cons] at he
      rcases he with he | he | he | he
      · exact Or.inl he
      · exact Or.inr (Or.inr (Or.inl he))
      · exact Or.inr (Or.inr (Or.inr he))
      · rcases hev e he with h1 | h1
        · exact Or.inl h1
        · exact Or.inr (Or.inl h1)
    · intro hg
      simp [Hardwares.loop, wifiConnected, millis, hc, hk, hg]
    · intro hg
      simp [Hardwares.loop, wifiConnected, millis, hc, hk, hg]

/-- The prologue of `loop()` enters no procedure but the reconnection. -/
theorem call_not_mem_prologue {pre : List Event} {c p : Proc} (hp : p ≠ c)
    (h : ∀ e ∈ pre, e = Event.wifiStatus ∨ e = Event.delay 500
          ∨ e = Event.call c ∨ e = Event.wifiBegin) :
    Event.call p ∉ pre := by
  intro he
  rcases h _ he with h1 | h1 | h1 | h1
  · exact Event.noConfusion h1
  · exact Event.noConfusion h1
  · exact hp (Event.call.inj h1)
  · exact Event.noConfusion h1

/-- In the simple sketch a call of `loop()` enters procedure `p`, one of those
of the reporting cycle, exactly when the interval is exceeded. -/
theorem Hardware.loop_enters_iff_simple (env : Env) (s : St) (p : Proc)
    (hp : p ≠ Proc.connectToWiFi)
    (hcyc : ∀ t : St, Event.call p ∈ (Hardware.reportingCycle env t).events) :
    Event.call p ∈ (Hardware.loop env s).events
      ↔ postingInterval < usub (env.millis s.nMillis % ulongMod) s.lastSendTime := by
  obtain ⟨k, pre, hpre, _, hyes, hno⟩ := Hardware.loop_spec_simple env s
  by_cases hg : postingInterval < usub (env.millis s.nMillis % ulongMod) s.lastSendTime
  · rw [(hyes hg).2]
    simp [hg, hcyc]
  · rw [(hno hg).2]
    simp [hg, call_not_mem_prologue hp hpre]

/-- In the extended sketch a call of `loop()` enters procedure `p`, one of
those of the reporting cycle, exactly when the interval is exceeded. -/
theorem Hardwares.loop_enters_iff_extended (env : Env) (s : St) (p : Proc)
    (hp : p ≠ Proc.conectarWiFi)
    (hcyc : ∀ t : St, Event.call p ∈ (Hardwares.reportingCycle env t).events) :
    Event.call p ∈ (Hardwares.loop env s).events
      ↔ postingInterval < usub (env.millis s.nMillis % ulongMod) s.lastSendTime := by
  obtain ⟨k, pre, hpre, _, hyes, hno⟩ := Hardwares.loop_spec_extended env s
  by_cases hg : postingInterval < usub (env.millis s.nMillis % ulongMod) s.lastSendTime
  · rw [(hyes hg).2]
    simp [hg, hcyc]
  · rw [(hno hg).2]
    simp [hg, call_not_mem_prologue hp hpre]

/-! ## When a reporting cycle starts -/

/-- C7 (as stated, refuted): at boot with the clock at 30000 the elapsed time
equals the interval, and neither sketch starts a reporting cycle: the call of
`loop()` only queries the status, reads the clock and waits. -/
theorem C7_elapsed_equal_to_interval_is_idle :
    usub ((Env.steady true 30000 200 (FVal.num 20)).millis St.boot.nMillis % ulongMod)
        St.boot.lastSendTime = postingInterval
    ∧ (Hardware.loop (Env.steady true 30000 200 (FVal.num 20)) St.boot).events
        = [Event.wifiStatus, Event.millis, Event.delay 1000]
    ∧ (Hardwares.loop (Env.steady true 30000 200 (FVal.num 20)) St.boot).events
        = [Event.wifiStatus, Event.millis, Event.delay 1000] := by
  refine ⟨by decide, ?_, ?_⟩
  · simp [Hardware.loop, wifiConnected, millis, Env.steady, St.boot, usub, ulongMod,
      postingInterval]
  · simp [Hardwares.loop, wifiConnected, millis, Env.steady, St.boot, usub, ulongMod,
      postingInterval]

/-- C7 (amended): in every call of `loop()`, acquisition and delivery are
entered if and only if the elapsed time `millis() - lastSendTime` (in 32-bit
unsigned arithmetic) is strictly greater than `postingInterval`. -/
theorem C7_cycle_iff_interval_exceeded (env : Env) (s : St) :
    (Event.call Proc.readSimulatedSensors ∈ (Hardware.loop env s).events
      ↔ postingInterval < usub (env.millis s.nMillis % ulongMod) s.lastSendTime)
    ∧ (Event.call Proc.sendSensorData ∈ (Hardware.loop env s).events
      ↔ postingInterval < usub (env.millis s.nMillis % ulongMod) s.lastSendTime)
    ∧ (Event.call Proc.ler_sensores ∈ (Hardwares.loop env s).events
      ↔ postingInterval < usub (env.millis s.nMillis % ulongMod) s.lastSendTime)
    ∧ (Event.call Proc.enviarDadosServidor ∈ (Hardwares.loop env s).events
      ↔ postingInterval < usub (env.millis s.nMillis % ulongMod) s.lastSendTime)
    ∧ (Event.call Proc.enviarThingSpeakCanais ∈ (Hardwares.loop env s).events
      ↔ postingInterval < usub (env.millis s.nMillis % ulongMod) s.lastSendTime) :=
  ⟨Hardware.loop_enters_iff_simple env s _ (by decide)
      (fun t => (Hardware.reportingCycle_spec_simple env t).1),
   Hardware.loop_enters_iff_simple env s _ (by decide)
      (fun t => (Hardware.reportingCycle_spec_simple env t).2.1),
   Hardwares.loop_enters_iff_extended env s _ (by decide)
      (fun t => (Hardwares.reportingCycle_spec_extended env t).1),
   Hardwares.loop_enters_iff_extended env s _ (by decide)
      (fun t => (Hardwares.reportingCycle_spec_extended env t).2.1),
   Hardwares.loop_enters_iff_extended env s _ (by decide)
      (fun t => (Hardwares.reportingCycle_spec_extended env t).2.2.1)⟩


/-! ## The interval between reporting cycles -/

/-- C9 (as stated, refuted): the link is down at the connectivity check and
the interval is exceeded; the call of `loop()` reconnects and then does enter
acquisition and delivery, and the POST is made. -/
theorem C9_link_down_iteration_still_reports :
    (Env.reconnecting 40000 200).status St.boot.nStatus = false
    ∧ Event.call Proc.readSimulatedSensors
        ∈ (Hardware.loop (Env.reconnecting 40000 200) St.boot).events
    ∧ Event.call Proc.sendSensorData
        ∈ (Hardware.loop (Env.reconnecting 40000 200) St.boot).events
    ∧ Event.httpAddHeader ∈ (Hardware.loop (Env.reconnecting 40000 200) St.boot).events
    ∧ Event.requestTemperatures ∈ (Hardwares.loop (Env.reconnecting 40000 200) St.boot).events
    ∧ Event.call Proc.enviarDadosServidor
        ∈ (Hardwares.loop (Env.reconnecting 40000 200) St.boot).events
    ∧ Event.httpAddHeader ∈ (Hardwares.loop (Env.reconnecting 40000 200) St.boot).events := by
  refine ⟨rfl, ?_, ?_, ?_, ?_, ?_, ?_⟩
  · exact (Hardware.loop_enters_iff_simple _ _ _ (by decide)
      (fun t => (Hardware.reportingCycle_spec_simple _ t).1)).2 (by decide)
  · exact (Hardware.loop_enters_iff_simple _ _ _ (by decide)
      (fun t => (Hardware.reportingCycle_spec_simple _ t).2.1)).2 (by decide)
  · decide
  · decide
  · exact (Hardwares.loop_enters_iff_extended _ _ _ (by decide)
      (fun t => (Hardwares.reportingCycle_spec_extended _ t).2.1)).2 (by decide)
  · decide

/-- C9 (amended): in a call of `loop()` that finds the link down at the
connectivity check, the reconnection procedure is entered; acquisition and
delivery are then entered exactly when the interval is exceeded, as in a call
that finds the link up. -/
theorem C9_link_down_reconnects_then_follows_interval (env : Env) (s : St)
    (h : env.status s.nStatus = false) :
    (Event.call Proc.connectToWiFi ∈ (Hardware.loop env s).events
      ∧ (Event.call Proc.readSimulatedSensors ∈ (Hardware.loop env s).events
          ↔ postingInterval < usub (env.millis s.nMillis % ulongMod) s.lastSendTime)
      ∧ (Event.call Proc.sendSensorData ∈ (Hardware.loop env s).events
          ↔ postingInterval < usub (env.millis s.nMillis % ulongMod) s.lastSendTime))
    ∧ (Event.call Proc.conectarWiFi ∈ (Hardwares.loop env s).events
      ∧ (Event.call Proc.ler_sensores ∈ (Hardwares.loop env s).events
          ↔ postingInterval < usub (env.millis s.nMillis % ulongMod) s.lastSendTime)
      ∧ (Event.call Proc.enviarDadosServidor ∈ (Hardwares.loop env s).events
          ↔ postingInterval < usub (env.millis s.nMillis % ulongMod) s.lastSendTime)
      ∧ (Event.call Proc.enviarThingSpeakCanais ∈ (Hardwares.loop env s).events
          ↔ postingInterval < usub (env.millis s.nMillis % ulongMod) s.lastSendTime)) := by
  refine ⟨⟨?_, ?_, ?_⟩, ⟨?_, ?_, ?_, ?_⟩⟩
  · obtain ⟨k, pre, _, hin, hyes, hno⟩ := Hardware.loop_spec_simple env s
    by_cases hg : postingInterval < usub (env.millis s.nMillis % ulongMod) s.lastSendTime
    · rw [(hyes hg).2]
      exact List.mem_append_left _ (hin h)
    · rw [(hno hg).2]
      exact List.mem_append_left _ (hin h)
  · exact Hardware.loop_enters_iff_simple env s _ (by decide)
      (fun t => (Hardware.reportingCycle_spec_simple env t).1)
  · exact Hardware.loop_enters_iff_simple env s _ (by decide)
      (fun t => (Hardware.reportingCycle_spec_simple env t).2.1)
  · obtain ⟨k, pre, _, hin, hyes, hno⟩ := Hardwares.loop_spec_extended env s
    by_cases hg : postingInterval < usub (env.millis s.nMillis % ulongMod) s.lastSendTime
    · rw [(hyes hg).2]
      exact List.mem_append_left _ (hin h)
    · rw [(hno hg).2]
      exact List.mem_append_left _ (hin h)
  · exact Hardwares.loop_enters_iff_extended env s _ (by decide)
      (fun t => (Hardwares.reportingCycle_spec_extended env t).1)
  · exact Hardwares.loop_enters_iff_extended env s _ (by decide)
      (fun t => (Hardwares.reportingCycle_spec_extended env t).2.1)
  · exact Hardwares.loop_enters_iff_extended env s _ (by decide)
      (fun t => (Hardwares.reportingCycle_spec_extended env t).2.2.1)

/-- C9 (witness): the link down at every query at boot, the clock at 10000:
the call of `loop()` enters the reconnection. -/
theorem C9_link_down_reconnects_then_follows_interval_witness :
    Event.call Proc.connectToWiFi
        ∈ (Hardware.loop (Env.steady false 10000 200 (FVal.num 20)) St.boot).events
    ∧ Event.call Proc.conectarWiFi
        ∈ (Hardwares.loop (Env.steady false 10000 200 (FVal.num 20)) St.boot).events :=
  ⟨(C9_link_down_reconnects_then_follows_interval (Env.steady false 10000 200 (FVal.num 20))
      St.boot rfl).1.1,
   (C9_link_down_reconnects_then_follows_interval (Env.steady false 10000 200 (FVal.num 20))
      St.boot rfl).2.1⟩


/-! ## Soil temperature readings in the primary payload -/

/-- C10 (the code at the failing input): every DS18B20 read returns the
failure value -127.0 and the link is up. `ler_sensores` stores -127.0 in
`valores[0]`, and the one POST of the reporting cycle carries -127.0 under
`ds18b20_1`, not the placeholder 0.0. -/
theorem C10_failed_read_is_sent_as_minus_127 :
    (Env.steady true 40000 200 (FVal.num (-127))).getTempC St.boot.nRequest 0 = FVal.num (-127)
    ∧ (Hardwares.ler_sensores (Env.steady true 40000 200 (FVal.num (-127))) FArray.uninit
        St.boot).val 0 = FVal.num (-127)
    ∧ (postBodies (Hardwares.loop (Env.steady true 40000 200 (FVal.num (-127)))
        St.boot).events).map (fun body => body.lookup "ds18b20_1")
        = [some (JVal.num (FVal.num (-127)))] := by
  refine ⟨rfl, ?_, ?_⟩
  · decide
  · decide

/-! ## The ThingSpeak query strings -/

/-- C11: `safe` renders NaN as the two-decimal form of 0 and any other value
as its own two-decimal form. For every sensor array, each sensor-carrying
field of `url1` and of `url2` is `safe` of the array element it is built
from, so assigning any value, NaN included, to one element of the array
leaves the fields built from the other elements as they were. With the link
up at entry, these two URLs are the ones `enviarThingSpeakCanais` requests. -/
theorem C11_thingspeak_fields_are_safe_values (env : Env) (s : St) (v : FArray)
    (j : Nat) (x : FVal) (q : ℚ) :
    Hardwares.safe FVal.nan = QVal.dec2 0
    ∧ Hardwares.safe (FVal.num q) = QVal.dec2 q
    ∧ (∀ f i, (f, i) ∈ Hardwares.camposCanal1 →
        (Hardwares.url1 v).field f = some (Hardwares.safe (v i)))
    ∧ (∀ f i, (f, i) ∈ Hardwares.camposCanal2 →
        (Hardwares.url2 v).field f = some (Hardwares.safe (v i)))
    ∧ (∀ f i, (f, i) ∈ Hardwares.camposCanal1 → i ≠ j →
        (Hardwares.url1 (v.write j x)).field f = (Hardwares.url1 v).field f)
    ∧ (∀ f i, (f, i) ∈ Hardwares.camposCanal2 → i ≠ j →
        (Hardwares.url2 (v.write j x)).field f = (Hardwares.url2 v).field f)
    ∧ (env.status s.nStatus = true →
        begunUrls (Hardwares.enviarThingSpeakCanais env v s).events
          = [Hardwares.url1 v, Hardwares.url2 v]) := by
  have h1 : ∀ (w : FArray) f i, (f, i) ∈ Hardwares.camposCanal1 →
      (Hardwares.url1 w).field f = some (Hardwares.safe (w i)) := by
    intro w f i hm
    simp only [Hardwares.camposCanal1, List.mem_cons, Prod.mk.injEq, List.mem_nil_iff,
      or_false] at hm
    rcases hm with ⟨rfl, rfl⟩ | ⟨rfl, rfl⟩ | ⟨rfl, rfl⟩ | ⟨rfl, rfl⟩ | ⟨rfl, rfl⟩ | ⟨rfl, rfl⟩ <;> rfl
  have h2 : ∀ (w : FArray) f i, (f, i) ∈ Hardwares.camposCanal2 →
      (Hardwares.url2 w).field f = some (Hardwares.safe (w i)) := by
    intro w f i hm
    simp only [Hardwares.camposCanal2, List.mem_cons, Prod.mk.injEq, List.mem_nil_iff,
      or_false] at hm
    rcases hm with ⟨rfl, rfl⟩ | ⟨rfl, rfl⟩ | ⟨rfl, rfl⟩ | ⟨rfl, rfl⟩ | ⟨rfl, rfl⟩ <;> rfl
  have hw : ∀ i, i ≠ j → (v.write j x) i = v i := by
    intro i hij
    simp [FArray.write, hij]
  refine ⟨rfl, rfl, h1 v, h2 v, ?_, ?_, ?_⟩
  · intro f i hm hij
    rw [h1 _ f i hm, h1 _ f i hm, hw i hij]
  · intro f i hm hij
    rw [h2 _ f i hm, h2 _ f i hm, hw i hij]
  · intro hc
    simp [Hardwares.enviarThingSpeakCanais, wifiConnected, httpGET, hc, begunUrls,
      Event.beginUrl]

/-- C11 (witness): with NaN in `valores[7]`, `field2` of channel 1 is the
two-decimal form of 0 and `field1`, built from `valores[6]`, is as without
the NaN; the two URLs are requested when the link is up. -/
theorem C11_thingspeak_fields_are_safe_values_witness :
    (Hardwares.url1 (FArray.write (fun _ => FVal.num 25) 7 FVal.nan)).field "field2"
        = some (Hardwares.safe FVal.nan)
    ∧ (Hardwares.url1 (FArray.write (fun _ => FVal.num 25) 7 FVal.nan)).field "field1"
        = (Hardwares.url1 (fun _ => FVal.num 25)).field "field1"
    ∧ begunUrls (Hardwares.enviarThingSpeakCanais (Env.steady true 40000 200 (FVal.num 20))
          (fun _ => FVal.num 25) St.boot).events
        = [Hardwares.url1 (fun _ => FVal.num 25), Hardwares.url2 (fun _ => FVal.num 25)] :=
  ⟨(C11_thingspeak_fields_are_safe_values (Env.steady true 40000 200 (FVal.num 20)) St.boot
      (FArray.write (fun _ => FVal.num 25) 7 FVal.nan) 7 FVal.nan 0).2.2.1 "field2" 7
      (by decide),
   (C11_thingspeak_fields_are_safe_values (Env.steady true 40000 200 (FVal.num 20)) St.boot
      (fun _ => FVal.num 25) 7 FVal.nan 0).2.2.2.2.1 "field1" 6 (by decide) (by decide),
   (C11_thingspeak_fields_are_safe_values (Env.steady true 40000 200 (FVal.num 20)) St.boot
      (fun _ => FVal.num 25) 7 FVal.nan 0).2.2.2.2.2.2 rfl⟩

/-! ## The auxiliary deliveries after the primary one -/

/-- Polling and waiting contain no event other than the status query and the
500 ms delay. -/
theorem not_mem_polling {evs : List Event} {e : Event} (h1 : e ≠ Event.wifiStatus)
    (h2 : e ≠ Event.delay 500)
    (h : ∀ a ∈ evs, a = Event.wifiStatus ∨ a = Event.delay 500) : e ∉ evs := by
  intro he
  rcases h e he with h3 | h3
  · exact h1 h3
  · exact h2 h3

/-- With the link up at entry, `enviarThingSpeakCanais` begins, sends and ends
the request of channel 1 and then that of channel 2, printing the code of
each, and consumes two results. -/
theorem Hardwares.enviarThingSpeakCanais_connected (env : Env) (v : FArray) (s : St)
    (h : env.status s.nStatus = true) :
    (Hardwares.enviarThingSpeakCanais env v s).events
      = [Event.call Proc.enviarThingSpeakCanais, Event.wifiStatus,
         Event.httpBegin (Hardwares.url1 v), Event.httpGET,
         Event.auxReport 1 (env.httpCode s.nHttp), Event.httpEnd,
         Event.httpBegin (Hardwares.url2 v), Event.httpGET,
         Event.auxReport 2 (env.httpCode (s.nHttp + 1)), Event.httpEnd] := by
  simp [Hardwares.enviarThingSpeakCanais, wifiConnected, httpGET, h]

/-- What follows the POST in `enviarDadosServidor` sends no GET and consumes
no result of a request. -/
theorem Hardwares.afterPOST_sends_nothing (env : Env) (code : Int) (s : St) :
    Event.httpGET ∉ (Hardwares.afterPOST env code s).events
    ∧ (Hardwares.afterPOST env code s).st.nHttp = s.nHttp := by
  obtain ⟨k, evs, hk, hev⟩ := Hardwares.conectarWiFi_spec env s
  have hn : Event.httpGET ∉ evs := not_mem_polling (by decide) (by decide) hev
  simp only [Hardwares.afterPOST, bind_events, bind_st, run_ite, run_pure, emit_run]
  split_ifs <;> simp [hk, hn]

/-- With the link up at entry, `enviarDadosServidor` reports the branch of the
code the POST returned, sends no GET and consumes one result. -/
theorem Hardwares.enviarDadosServidor_connected (env : Env) (v : FArray) (s : St)
    (h : env.status s.nStatus = true) :
    Event.report Proc.enviarDadosServidor (classify (env.httpCode s.nHttp))
        ∈ (Hardwares.enviarDadosServidor env v s).events
    ∧ Event.httpGET ∉ (Hardwares.enviarDadosServidor env v s).events
    ∧ (Hardwares.enviarDadosServidor env v s).st.nHttp = s.nHttp + 1 := by
  refine ⟨?_, ?_, ?_⟩
  · by_cases hok : env.httpCode s.nHttp = HTTP_CODE_OK <;>
      simp [Hardwares.enviarDadosServidor, Hardwares.afterPOST, Hardware.simulateBatteryLevel,
        random, dhtRead, wifiConnected, httpPOST, h, hok]
  · simp [Hardwares.enviarDadosServidor, Hardware.simulateBatteryLevel,
      random, dhtRead, wifiConnected, httpPOST, h, Hardwares.afterPOST_sends_nothing]
  · simp [Hardwares.enviarDadosServidor, Hardware.simulateBatteryLevel,
      random, dhtRead, wifiConnected, httpPOST, h, Hardwares.afterPOST_sends_nothing]

/-- `ler_sensores` sends no GET and consumes no result of a request. -/
theorem Hardwares.ler_sensores_sends_nothing (env : Env) (v : FArray) (s : St) :
    Event.httpGET ∉ (Hardwares.ler_sensores env v s).events
    ∧ (Hardwares.ler_sensores env v s).st.nHttp = s.nHttp := by
  refine ⟨?_, ?_⟩
  · simp only [Hardwares.ler_sensores, Hardwares.lerTemperaturas, Hardwares.requestTemperatures,
      dhtRead, analogRead, millis, Hardwares.anemometro, bind_events, bind_st, bind_val,
      run_pure, emit_run, getSt_run]
    split_ifs <;> simp
  · simp [Hardwares.ler_sensores, Hardwares.lerTemperaturas, Hardwares.requestTemperatures,
      dhtRead, analogRead, millis, Hardwares.anemometro]

/-- C12: with the link up at its entry, `enviarThingSpeakCanais` issues the
GET of channel 1 and then the GET of channel 2 whatever code the first
returned, and prints each code on its own. In a reporting cycle of the
extended sketch with the link up at every status query, whatever code the
primary POST returns (its branch is reported), exactly two GET requests
follow, and their two codes are printed. -/
theorem C12_auxiliary_requests_follow_every_post_outcome (env : Env) (s : St) (v : FArray) :
    (env.status s.nStatus = true →
      (Hardwares.enviarThingSpeakCanais env v s).events
        = [Event.call Proc.enviarThingSpeakCanais, Event.wifiStatus,
           Event.httpBegin (Hardwares.url1 v), Event.httpGET,
           Event.auxReport 1 (env.httpCode s.nHttp), Event.httpEnd,
           Event.httpBegin (Hardwares.url2 v), Event.httpGET,
           Event.auxReport 2 (env.httpCode (s.nHttp + 1)), Event.httpEnd])
    ∧ ((∀ k, env.status k = true) →
      Event.report Proc.enviarDadosServidor (classify (env.httpCode s.nHttp))
          ∈ (Hardwares.reportingCycle env s).events
      ∧ (Hardwares.reportingCycle env s).events.count Event.httpGET = 2
      ∧ Event.auxReport 1 (env.httpCode (s.nHttp + 1))
          ∈ (Hardwares.reportingCycle env s).events
      ∧ Event.auxReport 2 (env.httpCode (s.nHttp + 2))
          ∈ (Hardwares.reportingCycle env s).events) := by
  refine ⟨Hardwares.enviarThingSpeakCanais_connected env v s, ?_⟩
  intro hup
  obtain ⟨l1, l2⟩ := Hardwares.ler_sensores_sends_nothing env FArray.uninit s
  obtain ⟨d1, d2, d3⟩ := Hardwares.enviarDadosServidor_connected env
    (Hardwares.ler_sensores env FArray.uninit s).val
    (Hardwares.ler_sensores env FArray.uninit s).st (hup _)
  have ht := Hardwares.enviarThingSpeakCanais_connected env
    (Hardwares.ler_sensores env FArray.uninit s).val
    (Hardwares.enviarDadosServidor env (Hardwares.ler_sensores env FArray.uninit s).val
      (Hardwares.ler_sensores env FArray.uninit s).st).st (hup _)
  rw [d3, l2] at ht
  rw [l2] at d1
  have c1 := List.count_eq_zero_of_not_mem l1
  have c2 := List.count_eq_zero_of_not_mem d2
  refine ⟨?_, ?_, ?_, ?_⟩
  · simp only [Hardwares.reportingCycle, bind_events, List.mem_append]
    exact Or.inr (Or.inl d1)
  · simp only [Hardwares.reportingCycle, bind_events, List.count_append, c1, c2, ht]
    simp [millis, setLastSendTime, List.count_cons]
  · simp only [Hardwares.reportingCycle, bind_events, List.mem_append, ht]
    simp
  · simp only [Hardwares.reportingCycle, bind_events, List.mem_append, ht]
    simp

/-- C12 (witness): a cycle at boot with the link up in which every request,
the primary POST included, returns 500. -/
theorem C12_auxiliary_requests_follow_every_post_outcome_witness :
    Event.report Proc.enviarDadosServidor (DeliveryOutcome.serverRejected 500)
        ∈ (Hardwares.reportingCycle (Env.steady true 40000 500 (FVal.num 20)) St.boot).events
    ∧ (Hardwares.reportingCycle (Env.steady true 40000 500 (FVal.num 20))
        St.boot).events.count Event.httpGET = 2 :=
  ⟨((C12_auxiliary_requests_follow_every_post_outcome (Env.steady true 40000 500 (FVal.num 20))
      St.boot FArray.uninit).2 (fun _ => rfl)).1,
   ((C12_auxiliary_requests_follow_every_post_outcome (Env.steady true 40000 500 (FVal.num 20))
      St.boot FArray.uninit).2 (fun _ => rfl)).2.1⟩

/-! ## The primary payload -/
/-- Decimal text of the numbers 1 to 13, as `sprintf` with `%d` prints them. -/
theorem toString_small :
    toString (1 : Nat) = "1" ∧ toString (2 : Nat) = "2" ∧ toString (3 : Nat) = "3"
    ∧ toString (4 : Nat) = "4" ∧ toString (5 : Nat) = "5" ∧ toString (6 : Nat) = "6"
    ∧ toString (7 : Nat) = "7" ∧ toString (8 : Nat) = "8" ∧ toString (9 : Nat) = "9"
    ∧ toString (10 : Nat) = "10" ∧ toString (11 : Nat) = "11" ∧ toString (12 : Nat) = "12"
    ∧ toString (13 : Nat) = "13" := by
  decide

/-- One iteration of the DS18B20 loop of `enviarDadosServidor`. -/
theorem Hardwares.addDs18b20Keys_succ (v : FArray) (n i : Nat) (doc : Json) :
    Hardwares.addDs18b20Keys v (n + 1) i doc
      = Hardwares.addDs18b20Keys v n (i + 1)
          (doc.set ("ds18b20_" ++ toString (i + 1)) (JVal.num (Hardwares.nanToZero (v i)))) := by
  rw [Hardwares.addDs18b20Keys]
  cases h : v i <;> simp [Hardwares.nanToZero, FVal.isnan]

set_option maxHeartbeats 1000000 in
/-- The document of `enviarDadosServidor`, key by key. -/
theorem Hardwares.payload_eq (env : Env) (v : FArray) (a b c d : FVal) (bat : Int) :
    Hardwares.payload env v a b c d bat =
      [("monitoring", JVal.str "brise"),
       ("ds18b20_1", JVal.num (Hardwares.nanToZero (v 0))),
       ("ds18b20_2", JVal.num (Hardwares.nanToZero (v 1))),
       ("ds18b20_3", JVal.num (Hardwares.nanToZero (v 2))),
       ("ds18b20_4", JVal.num (Hardwares.nanToZero (v 3))),
       ("ds18b20_5", JVal.num (Hardwares.nanToZero (v 4))),
       ("ds18b20_6", JVal.num (Hardwares.nanToZero (v 5))),
       ("dht11_1_temp", JVal.num (Hardwares.nanToZero a)),
       ("dht11_1_hum", JVal.num (Hardwares.nanToZero b)),
       ("dht11_2_temp", JVal.num (Hardwares.nanToZero c)),
       ("dht11_2_hum", JVal.num (Hardwares.nanToZero d)),
       ("uv_1", JVal.num (v 9)), ("uv_2", JVal.num (v 10)),
       ("wind_1", JVal.num (v 11)), ("wind_2", JVal.num (v 12)),
       ("device_id", JVal.str env.mac), ("battery", JVal.int bat)] := by
  have h0 : ∀ i doc, Hardwares.addDs18b20Keys v 0 i doc = doc := by
    intro i doc
    rw [Hardwares.addDs18b20Keys]
  have h6 : ∀ doc, Hardwares.addDs18b20Keys v 6 0 doc
      = (((((doc.set "ds18b20_1" (JVal.num (Hardwares.nanToZero (v 0)))).set
          "ds18b20_2" (JVal.num (Hardwares.nanToZero (v 1)))).set
          "ds18b20_3" (JVal.num (Hardwares.nanToZero (v 2)))).set
          "ds18b20_4" (JVal.num (Hardwares.nanToZero (v 3)))).set
          "ds18b20_5" (JVal.num (Hardwares.nanToZero (v 4)))).set
          "ds18b20_6" (JVal.num (Hardwares.nanToZero (v 5))) := by
    intro doc
    rw [Hardwares.addDs18b20Keys_succ, Hardwares.addDs18b20Keys_succ,
      Hardwares.addDs18b20Keys_succ, Hardwares.addDs18b20Keys_succ,
      Hardwares.addDs18b20Keys_succ, Hardwares.addDs18b20Keys_succ, h0]
    simp [toString_small]
  unfold Hardwares.payload
  simp only [h6]
  simp [Json.set]

/-- The document of `sendSensorData`, key by key. -/
theorem Hardware.payload_eq_simple (env : Env) (v : FArray) (b : FVal) :
    Hardware.payload env v b =
      [("sensor1", JVal.num (v 0)), ("sensor2", JVal.num (v 1)), ("sensor3", JVal.num (v 2)),
       ("sensor4", JVal.num (v 3)), ("sensor5", JVal.num (v 4)), ("sensor6", JVal.num (v 5)),
       ("sensor7", JVal.num (v 6)), ("sensor8", JVal.num (v 7)), ("sensor9", JVal.num (v 8)),
       ("sensor10", JVal.num (v 9)), ("sensor11", JVal.num (v 10)),
       ("sensor12", JVal.num (v 11)), ("sensor13", JVal.num (v 12)),
       ("device_id", JVal.str env.mac), ("battery", JVal.num b)] := by
  simp only [Hardware.payload, Hardware.addSensorKeys]
  simp [Json.set, toString_small]

/-- Polling and waiting post nothing. -/
theorem postBodies_polling {evs : List Event}
    (h : ∀ e ∈ evs, e = Event.wifiStatus ∨ e = Event.delay 500) : postBodies evs = [] := by
  induction evs with
  | nil => rfl
  | cons a l ih =>
    have hl : postBodies l = [] := ih (fun e he => h e (List.mem_cons_of_mem _ he))
    rcases h a (List.mem_cons_self _ _) with rfl | rfl
    · simpa [postBodies, Event.postBody] using hl
    · simpa [postBodies, Event.postBody] using hl

/-- What follows the POST in `sendSensorData` posts nothing. -/
theorem Hardware.afterPOST_posts_nothing_simple (env : Env) (code : Int) (s : St) :
    postBodies (Hardware.afterPOST env code s).events = [] := by
  obtain ⟨k, evs, hk, hev⟩ := Hardware.connectToWiFi_spec env s
  have hn := postBodies_polling hev
  simp only [postBodies] at hn
  simp only [Hardware.afterPOST, bind_events, bind_st, run_ite, run_pure, emit_run]
  split_ifs <;> simp [hk, hn, postBodies, Event.postBody]

/-- What follows the POST in `enviarDadosServidor` posts nothing and reads no
sensor. -/
theorem Hardwares.afterPOST_posts_nothing_extended (env : Env) (code : Int) (s : St) :
    postBodies (Hardwares.afterPOST env code s).events = []
    ∧ (Hardwares.afterPOST env code s).events.filter Event.isSensorRead = [] := by
  obtain ⟨k, evs, hk, hev⟩ := Hardwares.conectarWiFi_spec env s
  have hn := postBodies_polling hev
  have hr : evs.filter Event.isSensorRead = [] := by
    rw [List.filter_eq_nil_iff]
    intro e he
    rcases hev e he with rfl | rfl <;> simp [Event.isSensorRead]
  simp only [postBodies] at hn
  simp only [Hardwares.afterPOST, bind_events, bind_st, run_ite, run_pure, emit_run]
  split_ifs <;> simp [hk, hn, hr, postBodies, Event.postBody, Event.isSensorRead]

/-- With the link up at entry, `sendSensorData` posts one body, the document
built from its arguments. -/
theorem Hardware.sendSensorData_posts (env : Env) (v : FArray) (b : FVal) (s : St)
    (h : env.status s.nStatus = true) :
    postBodies (Hardware.sendSensorData env v b s).events = [Hardware.payload env v b] := by
  have hn := Hardware.afterPOST_posts_nothing_simple env (env.httpCode s.nHttp)
    { s with nStatus := s.nStatus + 1, nHttp := s.nHttp + 1 }
  simp only [postBodies] at hn
  simp [Hardware.sendSensorData, wifiConnected, httpPOST, h, postBodies, Event.postBody, hn]

/-- With the link up at entry, `enviarDadosServidor` reads temperature and
humidity of the DHT drivers 1 and 2, and no other sensor, and posts one body:
the document built from the array, from these four readings and from the
simulated battery level. -/
theorem Hardwares.enviarDadosServidor_posts (env : Env) (v : FArray) (s : St)
    (h : env.status s.nStatus = true) :
    (Hardwares.enviarDadosServidor env v s).events.filter Event.isSensorRead
      = [Event.readTemperature 1, Event.readHumidity 1,
         Event.readTemperature 2, Event.readHumidity 2]
    ∧ ∃ battery : Int,
        postBodies (Hardwares.enviarDadosServidor env v s).events
          = [Hardwares.payload env v (env.dht s.nDht) (env.dht (s.nDht + 1))
              (env.dht (s.nDht + 2)) (env.dht (s.nDht + 3)) battery] := by
  obtain ⟨hn, hr⟩ := Hardwares.afterPOST_posts_nothing_extended env (env.httpCode s.nHttp)
    { s with nStatus := s.nStatus + 1, nDht := s.nDht + 1 + 1 + 1 + 1,
             nRandom := s.nRandom + 1, nHttp := s.nHttp + 1 }
  simp only [postBodies] at hn
  refine ⟨?_, ⟨(FVal.num (30 + ((env.random s.nRandom % 70 : Nat) : ℚ))).roundInt, ?_⟩⟩
  · simp [Hardwares.enviarDadosServidor, Hardware.simulateBatteryLevel, random, dhtRead,
      wifiConnected, httpPOST, h, Event.isSensorRead, hr]
  · simp [Hardwares.enviarDadosServidor, Hardware.simulateBatteryLevel, random, dhtRead,
      wifiConnected, httpPOST, h, postBodies, Event.postBody, hn]

/-- C13: for every sensor array, battery level and device address, the
document posted by the simple sketch has the keys `sensor1` .. `sensor13`,
`device_id` and `battery` and no other, with `sensorValues[i]` under
`sensor(i+1)`; the document posted by the extended sketch has the keys
`monitoring` (the literal `brise`), `ds18b20_1` .. `ds18b20_6`,
`dht11_1_temp`, `dht11_1_hum`, `dht11_2_temp`, `dht11_2_hum`, `uv_1`, `uv_2`,
`wind_1`, `wind_2`, `device_id` and `battery` and no other. With the link up
at entry each send procedure posts exactly one such document. -/
theorem C13_primary_payload_keys (env : Env) (s : St) (v : FArray) (batteryLevel : FVal)
    (t1 h1 t2 h2 : FVal) (battery : Int) :
    (Hardware.payload env v batteryLevel).map Prod.fst
        = ["sensor1", "sensor2", "sensor3", "sensor4", "sensor5", "sensor6", "sensor7",
           "sensor8", "sensor9", "sensor10", "sensor11", "sensor12", "sensor13",
           "device_id", "battery"]
    ∧ (∀ i, i < 13 →
        (Hardware.payload env v batteryLevel).lookup ("sensor" ++ toString (i + 1))
          = some (JVal.num (v i)))
    ∧ (Hardware.payload env v batteryLevel).lookup "device_id" = some (JVal.str env.mac)
    ∧ (Hardware.payload env v batteryLevel).lookup "battery" = some (JVal.num batteryLevel)
    ∧ (env.status s.nStatus = true →
        postBodies (Hardware.sendSensorData env v batteryLevel s).events
          = [Hardware.payload env v batteryLevel])
    ∧ (Hardwares.payload env v t1 h1 t2 h2 battery).map Prod.fst
        = ["monitoring", "ds18b20_1", "ds18b20_2", "ds18b20_3", "ds18b20_4", "ds18b20_5",
           "ds18b20_6", "dht11_1_temp", "dht11_1_hum", "dht11_2_temp", "dht11_2_hum",
           "uv_1", "uv_2", "wind_1", "wind_2", "device_id", "battery"]
    ∧ (Hardwares.payload env v t1 h1 t2 h2 battery).lookup "monitoring"
        = some (JVal.str "brise")
    ∧ (Hardwares.payload env v t1 h1 t2 h2 battery).lookup "device_id"
        = some (JVal.str env.mac)
    ∧ (Hardwares.payload env v t1 h1 t2 h2 battery).lookup "battery"
        = some (JVal.int battery)
    ∧ (env.status s.nStatus = true →
        ∃ a b c d bat,
          postBodies (Hardwares.enviarDadosServidor env v s).events
            = [Hardwares.payload env v a b c d bat]) := by
  rw [Hardware.payload_eq_simple, Hardwares.payload_eq]
  refine ⟨rfl, ?_, rfl, rfl, ?_, rfl, rfl, rfl, rfl, ?_⟩
  · intro i hi
    interval_cases i <;> rfl
  · intro hc
    rw [← Hardware.payload_eq_simple]
    exact Hardware.sendSensorData_posts env v batteryLevel s hc
  · intro hc
    obtain ⟨bat, hb⟩ := (Hardwares.enviarDadosServidor_posts env v s hc).2
    exact ⟨_, _, _, _, bat, hb⟩

/-- C13 (witness): the simple sketch at boot with the link up posts one
document, and `sensor3` carries `sensorValues[2]`. -/
theorem C13_primary_payload_keys_witness :
    (Hardware.payload (Env.steady true 40000 200 (FVal.num 20)) (fun i => FVal.num i)
        (FVal.num 50)).lookup ("sensor" ++ toString (2 + 1)) = some (JVal.num (FVal.num 2))
    ∧ postBodies (Hardware.sendSensorData (Env.steady true 40000 200 (FVal.num 20))
          (fun i => FVal.num i) (FVal.num 50) St.boot).events
        = [Hardware.payload (Env.steady true 40000 200 (FVal.num 20)) (fun i => FVal.num i)
            (FVal.num 50)] :=
  ⟨(C13_primary_payload_keys (Env.steady true 40000 200 (FVal.num 20)) St.boot
      (fun i => FVal.num i) (FVal.num 50) FVal.nan FVal.nan FVal.nan FVal.nan 0).2.1 2
      (by decide),
   (C13_primary_payload_keys (Env.steady true 40000 200 (FVal.num 20)) St.boot
      (fun i => FVal.num i) (FVal.num 50) FVal.nan FVal.nan FVal.nan FVal.nan 0).2.2.2.2.1 rfl⟩

/-! ## The configured interval -/

/-- C14 (the code at the failing input): the interval is 30000 ms, not
300000 ms. With the clock advancing 31000 ms from one read to the next, two
successive calls of `loop()` at boot each run a reporting cycle, in the simple
sketch at 31000 ms and at 93000 ms, in the extended one at 31000 ms and at
124000 ms: two cycles within 300000 ms. -/
theorem C14_two_cycles_within_five_minutes :
    postingInterval = 30000
    ∧ postingInterval ≠ 300000
    ∧ (Env.ticking 31000 200).millis 0 = 31000
    ∧ (Env.ticking 31000 200).millis 2 = 93000
    ∧ (Env.ticking 31000 200).millis 3 = 124000
    ∧ (Hardware.loopN (Env.ticking 31000 200) 2 St.boot).events.count
        (Event.call Proc.sendSensorData) = 2
    ∧ (Hardware.loopN (Env.ticking 31000 200) 2 St.boot).st.nMillis = 4
    ∧ (Hardwares.loopN (Env.ticking 31000 200) 2 St.boot).events.count
        (Event.call Proc.enviarDadosServidor) = 2
    ∧ (Hardwares.loopN (Env.ticking 31000 200) 2 St.boot).st.nMillis = 6 := by
  refine ⟨rfl, by decide, rfl, rfl, rfl, ?_, ?_, ?_, ?_⟩ <;> decide

/-! ## Sensor reads during delivery -/

/-- Polling and waiting read no sensor. -/
theorem filter_isSensorRead_polling {evs : List Event}
    (h : ∀ e ∈ evs, e = Event.wifiStatus ∨ e = Event.delay 500) :
    evs.filter Event.isSensorRead = [] := by
  rw [List.filter_eq_nil_iff]
  intro e he
  rcases h e he with rfl | rfl <;> simp [Event.isSensorRead]

/-- C15 (as stated, refuted): in a reporting cycle of the extended sketch at
boot with the link up, `enviarDadosServidor` reads the DHT drivers four times;
`ler_sensores` had acquired the humidity 40 from DHT 1, and the document
posted carries under `dht11_1_hum` the humidity 44 read during delivery. -/
theorem C15_delivery_reads_the_dht_sensors :
    (Hardwares.enviarDadosServidor (Env.ticking 31000 200) FArray.uninit
        St.boot).events.filter Event.isSensorRead
      = [Event.readTemperature 1, Event.readHumidity 1,
         Event.readTemperature 2, Event.readHumidity 2]
    ∧ (Hardwares.ler_sensores (Env.ticking 31000 200) FArray.uninit St.boot).val 6
        = FVal.num 40
    ∧ (postBodies (Hardwares.reportingCycle (Env.ticking 31000 200) St.boot).events).map
          (fun body => body.lookup "dht11_1_hum")
        = [some (JVal.num (FVal.num 44))] := by
  refine ⟨?_, ?_, ?_⟩ <;> decide

/-- C15 (amended): `ler_sensores` reads every sensor once, in the order
DS18B20 request and six temperatures, three DHT humidities, two UV voltages.
`enviarThingSpeakCanais` reads no sensor, and `enviarDadosServidor` reads none
when the link is down at entry. With the link up at entry it reads
temperature and humidity of DHT 1 and DHT 2 itself and posts one document, in
which the `ds18b20`, `uv` and `wind` values are those of the array acquired
(NaN replaced by 0 for `ds18b20`) and the four `dht11` values are those just
read. -/
theorem C15_sensor_reads_of_a_cycle (env : Env) (s : St) (v : FArray) :
    (Hardwares.ler_sensores env v s).events.filter Event.isSensorRead
      = [Event.requestTemperatures, Event.getTempC 0, Event.getTempC 1, Event.getTempC 2,
         Event.getTempC 3, Event.getTempC 4, Event.getTempC 5, Event.readHumidity 1,
         Event.readHumidity 2, Event.readHumidity 3, Event.analogRead Hardwares.UV_PIN1,
         Event.analogRead Hardwares.UV_PIN2]
    ∧ (Hardwares.enviarThingSpeakCanais env v s).events.filter Event.isSensorRead = []
    ∧ (env.status s.nStatus = false →
        (Hardwares.enviarDadosServidor env v s).events.filter Event.isSensorRead = [])
    ∧ (env.status s.nStatus = true →
        (Hardwares.enviarDadosServidor env v s).events.filter Event.isSensorRead
          = [Event.readTemperature 1, Event.readHumidity 1,
             Event.readTemperature 2, Event.readHumidity 2]
        ∧ ∃ body, postBodies (Hardwares.enviarDadosServidor env v s).events = [body]
          ∧ body.lookup "ds18b20_1" = some (JVal.num (Hardwares.nanToZero (v 0)))
          ∧ body.lookup "ds18b20_2" = some (JVal.num (Hardwares.nanToZero (v 1)))
          ∧ body.lookup "ds18b20_3" = some (JVal.num (Hardwares.nanToZero (v 2)))
          ∧ body.lookup "ds18b20_4" = some (JVal.num (Hardwares.nanToZero (v 3)))
          ∧ body.lookup "ds18b20_5" = some (JVal.num (Hardwares.nanToZero (v 4)))
          ∧ body.lookup "ds18b20_6" = some (JVal.num (Hardwares.nanToZero (v 5)))
          ∧ body.lookup "uv_1" = some (JVal.num (v 9))
          ∧ body.lookup "uv_2" = some (JVal.num (v 10))
          ∧ body.lookup "wind_1" = some (JVal.num (v 11))
          ∧ body.lookup "wind_2" = some (JVal.num (v 12))
          ∧ body.lookup "dht11_1_temp"
              = some (JVal.num (Hardwares.nanToZero (env.dht s.nDht)))
          ∧ body.lookup "dht11_1_hum"
              = some (JVal.num (Hardwares.nanToZero (env.dht (s.nDht + 1))))
          ∧ body.lookup "dht11_2_temp"
              = some (JVal.num (Hardwares.nanToZero (env.dht (s.nDht + 2))))
          ∧ body.lookup "dht11_2_hum"
              = some (JVal.num (Hardwares.nanToZero (env.dht (s.nDht + 3))))) := by
  refine ⟨?_, ?_, ?_, ?_⟩
  · simp only [Hardwares.ler_sensores, Hardwares.lerTemperaturas, Hardwares.requestTemperatures,
      dhtRead, analogRead, millis, Hardwares.anemometro, bind_events, bind_st, bind_val,
      run_pure, emit_run, getSt_run]
    split_ifs <;> simp [Event.isSensorRead]
  · cases hc : env.status s.nStatus <;>
      simp [Hardwares.enviarThingSpeakCanais, wifiConnected, httpGET, hc, Event.isSensorRead]
  · intro hc
    obtain ⟨k, evs, hk, hev⟩ :=
      Hardwares.conectarWiFi_spec env { s with nStatus := s.nStatus + 1 }
    simp [Hardwares.enviarDadosServidor, wifiConnected, hc, hk, Event.isSensorRead,
      filter_isSensorRead_polling hev]
  · intro hc
    obtain ⟨hr, bat, hb⟩ := Hardwares.enviarDadosServidor_posts env v s hc
    refine ⟨hr, _, hb, ?_⟩
    rw [Hardwares.payload_eq]
    exact ⟨rfl, rfl, rfl, rfl, rfl, rfl, rfl, rfl, rfl, rfl, rfl, rfl, rfl, rfl⟩

/-- C15 (witness): the delivery at boot with the link up reads the DHT
drivers four times; with the link down it reads no sensor. -/
theorem C15_sensor_reads_of_a_cycle_witness :
    (Hardwares.enviarDadosServidor (Env.steady true 40000 200 (FVal.num 20)) FArray.uninit
        St.boot).events.filter Event.isSensorRead
      = [Event.readTemperature 1, Event.readHumidity 1,
         Event.readTemperature 2, Event.readHumidity 2]
    ∧ (Hardwares.enviarDadosServidor (Env.steady false 40000 200 (FVal.num 20)) FArray.uninit
        St.boot).events.filter Event.isSensorRead = [] :=
  ⟨((C15_sensor_reads_of_a_cycle (Env.steady true 40000 200 (FVal.num 20)) St.boot
      FArray.uninit).2.2.2 rfl).1,
   (C15_sensor_reads_of_a_cycle (Env.steady false 40000 200 (FVal.num 20)) St.boot
      FArray.uninit).2.2.1 rfl⟩

/-! ## The rate sampler in 32-bit arithmetic -/

/-- `usub` is the difference of the two values reduced modulo `2 ^ 32`. -/
theorem usub_eq_emod (a b : Nat) : ((usub a b : Nat) : Int) = ((a : Int) - (b : Int)) % 2 ^ 32 := by
  unfold usub ulongMod
  omega

/-- `usub` recovers a true difference below `2 ^ 32` from the reduced values. -/
theorem usub_of_true_values {x y : Nat} (hxy : x ≤ y) (hd : y - x < ulongMod) :
    usub (y % ulongMod) (x % ulongMod) = y - x := by
  unfold usub
  unfold ulongMod at *
  omega

/-- The value computed by the anemometer block when the time marker is not 0
and differs, as a 32-bit value, from the clock value: the rate function
applied to the two wrapped differences, the divisor being positive. -/
theorem Hardwares.anemometro_val_of_ne (s : St) (agora c1 c2 : Nat)
    (hprev : s.ultimoMillis ≠ 0) (hp : s.ultimoMillis < ulongMod) (ha : agora < ulongMod)
    (hne : agora ≠ s.ultimoMillis) :
    0 < usub agora s.ultimoMillis
    ∧ (Hardwares.anemometro agora c1 c2 s).val
      = (Hardwares.pulsosPorSegundo (usub c1 s.ultimosPulsos1) (usub agora s.ultimoMillis),
         Hardwares.pulsosPorSegundo (usub c2 s.ultimosPulsos2) (usub agora s.ultimoMillis)) := by
  have hpos : 0 < usub agora s.ultimoMillis := by
    unfold usub
    unfold ulongMod at *
    omega
  refine ⟨hpos, ?_⟩
  simp only [Hardwares.anemometro, Hardwares.deltaMillis, hprev, if_false, hpos, if_true,
    gt_iff_lt]

/-- A wrapped difference is below `2 ^ 32`. -/
theorem usub_lt (a b : Nat) : usub a b < 2 ^ 32 := by
  unfold usub ulongMod
  omega

/-- C16 (as stated, refuted): the stored marker is 1000 with both stored
counts 0, and the update comes at 2000 with the counts 16777217 and 1. The
marker is not 0 and differs from the clock value, and the formula of the
claim gives 16777217 and 1; the code reports 16777216 on the first channel,
since the conversion of 16777217 to binary32 rounds it. With the counts 1 at
1003 the formula gives 1000/3 and the code reports 10922667/32768. -/
theorem C16_rate_is_rounded_to_binary32 :
    ({ St.boot with ultimoMillis := 1000 } : St).ultimoMillis ≠ 0
    ∧ (2000 : Nat) ≠ ({ St.boot with ultimoMillis := 1000 } : St).ultimoMillis
    ∧ (Hardwares.anemometro 2000 16777217 1 { St.boot with ultimoMillis := 1000 }).val
        = (FVal.num 16777216, FVal.num 1)
    ∧ (Hardwares.anemometro 2000 16777217 1 { St.boot with ultimoMillis := 1000 }).val.1
        ≠ FVal.num (((((16777217 : Int) - 0) % 2 ^ 32 : Int) : ℚ) * 1000
            / ((((2000 : Int) - 1000) % 2 ^ 32 : Int) : ℚ))
    ∧ (Hardwares.anemometro 1003 1 1 { St.boot with ultimoMillis := 1000 }).val
        = (FVal.num (10922667 / 32768), FVal.num (10922667 / 32768))
    ∧ (Hardwares.anemometro 1003 1 1 { St.boot with ultimoMillis := 1000 }).val.1
        ≠ FVal.num (((((1 : Int) - 0) % 2 ^ 32 : Int) : ℚ) * 1000
            / ((((1003 : Int) - 1000) % 2 ^ 32 : Int) : ℚ)) := by
  refine ⟨by decide, by decide, ?_, ?_, ?_, ?_⟩
  · decide!
  · decide!
  · decide!
  · decide!

/-- C16 (amended): with 32-bit values, when the stored time marker `prev` is
not 0 and differs from the clock value `now`, the divisor
`(now - prev) mod 2^32` is positive and the rate reported on each channel is
a number: the result of
`(float)((count - prevCount) mod 2^32) * 1000.0f / (float)((now - prev) mod 2^32)`
with the two conversions, the product and the quotient each rounded to
binary32. It lies within the relative error `5 * 2 ^ (-24)` of the exact
quotient, and is the binary32 value nearest to it when the pulse difference
times 1000 and the time difference are below `2 ^ 24`. Hence, when the true
elapsed time and the true number of pulses since the reference are below
`2 ^ 32` and the stored marker is not 0, the report is within that error of
the true rate (and nearest to it under the same bounds) even if the clock or
a counter wrapped in between. And when the stored marker is 0 both rates are
0, whatever the counters and the clock. -/
theorem C16_rate_in_32_bit_arithmetic (s : St) (agora c1 c2 : Nat)
    (t1 t2 a1 a2 b1 b2 : Nat) :
    (s.ultimoMillis ≠ 0 → s.ultimoMillis < ulongMod → agora < ulongMod →
      agora ≠ s.ultimoMillis →
        0 < ((agora : Int) - (s.ultimoMillis : Int)) % 2 ^ 32
        ∧ ∃ r1 r2 : ℚ,
          (Hardwares.anemometro agora c1 c2 s).val = (FVal.num r1, FVal.num r2)
          ∧ r1 = round32 (round32
                (round32 ((((c1 : Int) - (s.ultimosPulsos1 : Int)) % 2 ^ 32 : Int) : ℚ) * 1000)
              / round32 ((((agora : Int) - (s.ultimoMillis : Int)) % 2 ^ 32 : Int) : ℚ))
          ∧ r2 = round32 (round32
                (round32 ((((c2 : Int) - (s.ultimosPulsos2 : Int)) % 2 ^ 32 : Int) : ℚ) * 1000)
              / round32 ((((agora : Int) - (s.ultimoMillis : Int)) % 2 ^ 32 : Int) : ℚ))
          ∧ |r1 - ((((c1 : Int) - (s.ultimosPulsos1 : Int)) % 2 ^ 32 : Int) : ℚ) * 1000
                / ((((agora : Int) - (s.ultimoMillis : Int)) % 2 ^ 32 : Int) : ℚ)|
              ≤ ((((c1 : Int) - (s.ultimosPulsos1 : Int)) % 2 ^ 32 : Int) : ℚ) * 1000
                / ((((agora : Int) - (s.ultimoMillis : Int)) % 2 ^ 32 : Int) : ℚ)
                * (5 / 2 ^ 24)
          ∧ |r2 - ((((c2 : Int) - (s.ultimosPulsos2 : Int)) % 2 ^ 32 : Int) : ℚ) * 1000
                / ((((agora : Int) - (s.ultimoMillis : Int)) % 2 ^ 32 : Int) : ℚ)|
              ≤ ((((c2 : Int) - (s.ultimosPulsos2 : Int)) % 2 ^ 32 : Int) : ℚ) * 1000
                / ((((agora : Int) - (s.ultimoMillis : Int)) % 2 ^ 32 : Int) : ℚ)
                * (5 / 2 ^ 24)
          ∧ (((c1 : Int) - (s.ultimosPulsos1 : Int)) % 2 ^ 32 * 1000 < 2 ^ 24 →
              ((agora : Int) - (s.ultimoMillis : Int)) % 2 ^ 32 < 2 ^ 24 →
              r1 = round32
                (((((c1 : Int) - (s.ultimosPulsos1 : Int)) % 2 ^ 32 : Int) : ℚ) * 1000
                  / ((((agora : Int) - (s.ultimoMillis : Int)) % 2 ^ 32 : Int) : ℚ)))
          ∧ (((c2 : Int) - (s.ultimosPulsos2 : Int)) % 2 ^ 32 * 1000 < 2 ^ 24 →
              ((agora : Int) - (s.ultimoMillis : Int)) % 2 ^ 32 < 2 ^ 24 →
              r2 = round32
                (((((c2 : Int) - (s.ultimosPulsos2 : Int)) % 2 ^ 32 : Int) : ℚ) * 1000
                  / ((((agora : Int) - (s.ultimoMillis : Int)) % 2 ^ 32 : Int) : ℚ))))
    ∧ (s.ultimoMillis = t1 % ulongMod → s.ultimosPulsos1 = a1 % ulongMod →
        s.ultimosPulsos2 = b1 % ulongMod → t1 % ulongMod ≠ 0 →
        t1 < t2 → t2 - t1 < ulongMod → a1 ≤ a2 → a2 - a1 < ulongMod →
        b1 ≤ b2 → b2 - b1 < ulongMod →
        ∃ r1 r2 : ℚ,
          (Hardwares.anemometro (t2 % ulongMod) (a2 % ulongMod) (b2 % ulongMod) s).val
            = (FVal.num r1, FVal.num r2)
          ∧ |r1 - ((a2 - a1 : Nat) : ℚ) * 1000 / ((t2 - t1 : Nat) : ℚ)|
              ≤ ((a2 - a1 : Nat) : ℚ) * 1000 / ((t2 - t1 : Nat) : ℚ) * (5 / 2 ^ 24)
          ∧ |r2 - ((b2 - b1 : Nat) : ℚ) * 1000 / ((t2 - t1 : Nat) : ℚ)|
              ≤ ((b2 - b1 : Nat) : ℚ) * 1000 / ((t2 - t1 : Nat) : ℚ) * (5 / 2 ^ 24)
          ∧ ((a2 - a1) * 1000 < 2 ^ 24 → t2 - t1 < 2 ^ 24 →
              r1 = round32 (((a2 - a1 : Nat) : ℚ) * 1000 / ((t2 - t1 : Nat) : ℚ)))
          ∧ ((b2 - b1) * 1000 < 2 ^ 24 → t2 - t1 < 2 ^ 24 →
              r2 = round32 (((b2 - b1 : Nat) : ℚ) * 1000 / ((t2 - t1 : Nat) : ℚ))))
    ∧ (s.ultimoMillis = 0 →
        (Hardwares.anemometro agora c1 c2 s).val = (FVal.num 0, FVal.num 0)) := by
  refine ⟨?_, ?_, ?_⟩
  · intro hprev hp ha hne
    obtain ⟨hpos, hval⟩ := Hardwares.anemometro_val_of_ne s agora c1 c2 hprev hp ha hne
    have e1 := usub_eq_emod c1 s.ultimosPulsos1
    have e2 := usub_eq_emod c2 s.ultimosPulsos2
    have e3 := usub_eq_emod agora s.ultimoMillis
    have q1 : ((usub c1 s.ultimosPulsos1 : Nat) : ℚ)
        = ((((c1 : Int) - (s.ultimosPulsos1 : Int)) % 2 ^ 32 : Int) : ℚ) := by
      rw [← e1]
      simp
    have q2 : ((usub c2 s.ultimosPulsos2 : Nat) : ℚ)
        = ((((c2 : Int) - (s.ultimosPulsos2 : Int)) % 2 ^ 32 : Int) : ℚ) := by
      rw [← e2]
      simp
    have q3 : ((usub agora s.ultimoMillis : Nat) : ℚ)
        = ((((agora : Int) - (s.ultimoMillis : Int)) % 2 ^ 32 : Int) : ℚ) := by
      rw [← e3]
      simp
    obtain ⟨r1, h1, f1, g1, n1⟩ := pulsosPorSegundo_spec (usub c1 s.ultimosPulsos1)
      (usub agora s.ultimoMillis) hpos (usub_lt _ _)
    obtain ⟨r2, h2, f2, g2, n2⟩ := pulsosPorSegundo_spec (usub c2 s.ultimosPulsos2)
      (usub agora s.ultimoMillis) hpos (usub_lt _ _)
    rw [q1, q3] at f1 g1 n1
    rw [q2, q3] at f2 g2 n2
    refine ⟨?_, r1, r2, by rw [hval, h1, h2], f1, f2, g1, g2, ?_, ?_⟩
    · rw [← e3]
      exact_mod_cast hpos
    · intro hc hd
      rw [← e1] at hc
      rw [← e3] at hd
      exact n1 (by exact_mod_cast hc) (by exact_mod_cast hd)
    · intro hc hd
      rw [← e2] at hc
      rw [← e3] at hd
      exact n2 (by exact_mod_cast hc) (by exact_mod_cast hd)
  · intro hm h1 h2 h0 ht htd ha had hb hbd
    have hne : t2 % ulongMod ≠ s.ultimoMillis := by
      rw [hm]
      unfold ulongMod at *
      omega
    have hp : s.ultimoMillis < ulongMod := by
      rw [hm]
      exact Nat.mod_lt _ (by unfold ulongMod; decide)
    have hmod : t2 % ulongMod < ulongMod := Nat.mod_lt _ (by unfold ulongMod; decide)
    obtain ⟨_, hval⟩ := Hardwares.anemometro_val_of_ne s (t2 % ulongMod) (a2 % ulongMod)
      (b2 % ulongMod) (by rw [hm]; exact h0) hp hmod hne
    rw [hm, h1, h2, usub_of_true_values ht.le htd, usub_of_true_values ha had,
      usub_of_true_values hb hbd] at hval
    have hpos : 0 < t2 - t1 := by omega
    have hlt : t2 - t1 < 2 ^ 32 := by
      unfold ulongMod at htd
      exact htd
    obtain ⟨r1, k1, _, g1, n1⟩ := pulsosPorSegundo_spec (a2 - a1) (t2 - t1) hpos hlt
    obtain ⟨r2, k2, _, g2, n2⟩ := pulsosPorSegundo_spec (b2 - b1) (t2 - t1) hpos hlt
    exact ⟨r1, r2, by rw [hval, k1, k2], g1, g2, n1, n2⟩
  · intro hm
    simp [Hardwares.anemometro, Hardwares.deltaMillis, hm]

/-- C16 (witness): from a reference taken 296 ms before the clock wraps with
the counters 6 below their wrap, an update 1000 ms later (clock value 704)
after 10 pulses on each channel (counter value 4) reports 10 pulses per
second, exactly; and from the state at boot, where the marker is 0, an update
reports 0. -/
theorem C16_rate_in_32_bit_arithmetic_witness :
    (Hardwares.anemometro (4294968000 % ulongMod) (4294967300 % ulongMod)
        (4294967300 % ulongMod) St.nearWrap).val = (FVal.num 10, FVal.num 10)
    ∧ (Hardwares.anemometro 31000 5 7 St.boot).val = (FVal.num 0, FVal.num 0) := by
  refine ⟨?_, ?_⟩
  · obtain ⟨r1, r2, hv, _, _, n1, n2⟩ := (C16_rate_in_32_bit_arithmetic St.nearWrap 0 0 0
      4294967000 4294968000 4294967290 4294967300 4294967290 4294967300).2.1
      (by decide) (by decide) (by decide) (by decide) (by decide) (by decide) (by decide)
      (by decide) (by decide) (by decide)
    rw [hv, n1 (by decide) (by decide), n2 (by decide) (by decide)]
    decide!
  · exact (C16_rate_in_32_bit_arithmetic St.boot 31000 5 7 0 0 0 0 0 0).2.2 rfl

end EcoView
